import Mathlib

/-!
# WiredTiger N-API binding: resource lifecycle and buffer handling

A shallow embedding of `src/lib/wiredtiger_binding.cc`.

* Native handles (`WT_CONNECTION *`, `WT_SESSION *`, `WT_CURSOR *`) are natural numbers,
  `0` being `nullptr`.
* A `std::string` is the list of its bytes; a JavaScript string is the list of its UTF-16
  code units. `Utf8Value()` and `Napi::String::New` convert between the two, replacing
  what has no counterpart by U+FFFD.
* The storage engine is external.  It is a parameter: a transition function on an abstract
  engine state that answers every native call.  Every native call the wrapper makes is
  also appended to a log, so that theorems can speak about which calls were issued and in
  which order.
* A wrapper method returns an `Outcome`: a value, a pending JavaScript exception, or
  `nullDeref` when the method calls through a null native handle (undefined behaviour in
  the source, which has no check at that point).
-/

namespace WiredTigerBinding

/-- Contents of a `std::string` or of a native byte range. -/
abbrev Bytes := List UInt8

/-- The bytes of an ASCII string literal of the source. -/
def ascii (s : String) : Bytes := s.data.map (fun c => UInt8.ofNat c.toNat)

/-- What the engine sees of `s.c_str()`: the bytes before the first NUL. -/
def c_str (s : Bytes) : Bytes := s.takeWhile (fun b => b != 0)

/-- Decimal rendering, `std::to_string` on an unsigned integer. -/
def to_string (n : Nat) : Bytes := (Nat.toDigits 10 n).map (fun c => UInt8.ofNat c.toNat)

/-- The engine status `WT_NOTFOUND` (value as in `wiredtiger.h`, which is not part of the
sources). -/
def WT_NOTFOUND : Int := -31803

/-- The status `EEXIST` (value as in `errno.h`, which is not part of the sources). -/
def EEXIST : Int := 17

/-! ## JavaScript strings and their conversions

The two conversions belong to the host runtime, not to the sources; they are written out
here as the runtime performs them. -/

/-- A JavaScript string: its UTF-16 code units. -/
abbrev JsString := List UInt16

/-- The JavaScript string of a literal whose characters are in the Basic Multilingual
Plane. -/
def js (s : String) : JsString := s.data.map (fun c => UInt16.ofNat c.toNat)

/-- A high (leading) surrogate code unit. -/
def isHigh (u : UInt16) : Bool := decide (0xD800 ≤ u.toNat ∧ u.toNat ≤ 0xDBFF)
/-- A low (trailing) surrogate code unit. -/
def isLow (u : UInt16) : Bool := decide (0xDC00 ≤ u.toNat ∧ u.toNat ≤ 0xDFFF)

/-- The code point of a code unit that stands alone: itself, or U+FFFD for a surrogate. -/
def unitOrReplacement (u : UInt16) : Nat :=
  if isHigh u || isLow u then 0xFFFD else u.toNat

/-- The code points of a JavaScript string: a high surrogate followed by a low one is one
supplementary code point, any other surrogate is replaced by U+FFFD. -/
def codePoints : JsString → List Nat
  | [] => []
  | [u] => [unitOrReplacement u]
  | u :: v :: rest =>
    if isHigh u && isLow v then
      (0x10000 + (u.toNat - 0xD800) * 0x400 + (v.toNat - 0xDC00)) :: codePoints rest
    else unitOrReplacement u :: codePoints (v :: rest)

/-- The UTF-8 encoding of a code point. -/
def utf8Encode (cp : Nat) : Bytes :=
  if cp < 0x80 then [UInt8.ofNat cp]
  else if cp < 0x800 then [UInt8.ofNat (0xC0 + cp / 0x40), UInt8.ofNat (0x80 + cp % 0x40)]
  else if cp < 0x10000 then
    [UInt8.ofNat (0xE0 + cp / 0x1000), UInt8.ofNat (0x80 + cp / 0x40 % 0x40),
      UInt8.ofNat (0x80 + cp % 0x40)]
  else
    [UInt8.ofNat (0xF0 + cp / 0x40000), UInt8.ofNat (0x80 + cp / 0x1000 % 0x40),
      UInt8.ofNat (0x80 + cp / 0x40 % 0x40), UInt8.ofNat (0x80 + cp % 0x40)]

/-- The conversion `Napi::String::Utf8Value()`: the UTF-8 bytes of a JavaScript string, an
unpaired surrogate being written as U+FFFD. -/
def Utf8Value (s : JsString) : Bytes := (codePoints s).flatMap utf8Encode

/-- State of the UTF-8 decoder: the code point collected so far, the number of
continuation bytes still needed, and the range allowed for the next byte. -/
structure Utf8State where
  cp : Nat
  needed : Nat
  lower : Nat
  upper : Nat
  deriving DecidableEq, Repr

/-- The decoder state between two characters. -/
def utf8Init : Utf8State := ⟨0, 0, 0x80, 0xBF⟩

/-- Decoding a byte that starts a character: what is emitted, and the next state. -/
def utf8Lead (b : Nat) : List Nat × Utf8State :=
  if b < 0x80 then ([b], utf8Init)
  else if 0xC2 ≤ b ∧ b ≤ 0xDF then ([], ⟨b - 0xC0, 1, 0x80, 0xBF⟩)
  else if 0xE0 ≤ b ∧ b ≤ 0xEF then
    ([], ⟨b - 0xE0, 2, if b = 0xE0 then 0xA0 else 0x80, if b = 0xED then 0x9F else 0xBF⟩)
  else if 0xF0 ≤ b ∧ b ≤ 0xF4 then
    ([], ⟨b - 0xF0, 3, if b = 0xF0 then 0x90 else 0x80, if b = 0xF4 then 0x8F else 0xBF⟩)
  else ([0xFFFD], utf8Init)

/-- Decoding one byte. A byte that cannot continue the character in progress ends it with
U+FFFD and is then decoded as the start of a character. -/
def utf8Step (st : Utf8State) (b : Nat) : List Nat × Utf8State :=
  if st.needed = 0 then utf8Lead b
  else if st.lower ≤ b ∧ b ≤ st.upper then
    if st.needed = 1 then ([st.cp * 0x40 + (b - 0x80)], utf8Init)
    else ([], ⟨st.cp * 0x40 + (b - 0x80), st.needed - 1, 0x80, 0xBF⟩)
  else (0xFFFD :: (utf8Lead b).1, (utf8Lead b).2)

/-- The code points decoded from UTF-8 bytes, each maximal ill-formed run being replaced by
U+FFFD. -/
def utf8Decode : Utf8State → Bytes → List Nat
  | st, [] => if st.needed = 0 then [] else [0xFFFD]
  | st, b :: bs => (utf8Step st b.toNat).1 ++ utf8Decode (utf8Step st b.toNat).2 bs

/-- The UTF-16 code units of a code point. -/
def utf16Encode (cp : Nat) : List UInt16 :=
  if cp < 0x10000 then [UInt16.ofNat cp]
  else [UInt16.ofNat (0xD800 + (cp - 0x10000) / 0x400),
    UInt16.ofNat (0xDC00 + (cp - 0x10000) % 0x400)]

/-- The conversion `Napi::String::New(env, std::string)`: the JavaScript string decoded
from UTF-8 bytes. -/
def StringNew (b : Bytes) : JsString := (utf8Decode utf8Init b).flatMap utf16Encode

/-- A Unicode scalar value: a code point that is not a surrogate. -/
def isScalar (cp : Nat) : Prop := cp < 0x110000 ∧ ¬ (0xD800 ≤ cp ∧ cp ≤ 0xDFFF)

/-- The string has no unpaired surrogate. -/
def wellFormed : JsString → Bool
  | [] => true
  | [u] => !(isHigh u || isLow u)
  | u :: v :: rest =>
    if isHigh u && isLow v then wellFormed rest
    else !(isHigh u || isLow u) && wellFormed (v :: rest)


/-! ## Values crossing the JavaScript boundary -/

/-- JavaScript values the binding receives or returns. -/
inductive JsValue where
  | undefined
  | null
  | boolean (b : Bool)
  | number (n : Int)
  | string (s : JsString)
  | arrayBuffer (data : Bytes)
  /-- The object with string properties `key` and `value`. -/
  | keyValue (key value : JsString)
  /-- The object with number property `exact`. -/
  | exactObj (exact : Int)
  deriving DecidableEq, Repr

/-- A pending JavaScript exception. -/
inductive JsError where
  | typeError (msg : String)
  | error (msg : String)
  deriving DecidableEq, Repr

/-- How a wrapper method ends. -/
inductive Outcome (α : Type) where
  /-- The method returns `v` with no exception pending. -/
  | ok (v : α)
  /-- The method leaves an exception pending (`ThrowAsJavaScriptException`). -/
  | raise (e : JsError)
  /-- The method calls through a null native handle. -/
  | nullDeref
  deriving DecidableEq, Repr

/-! ## The engine -/

/-- Whose storage the `data` pointer of a `WT_ITEM` designates. -/
inductive Buffer where
  /-- The cursor wrapper's member `pending_key_`. -/
  | pendingKey
  /-- The cursor wrapper's member `pending_value_`. -/
  | pendingValue
  /-- A `std::string` that lives only during the current wrapper call. -/
  | callLocal
  /-- The storage of an `ArrayBuffer` owned by the JavaScript caller. -/
  | callerArrayBuffer
  /-- Memory owned by the engine. -/
  | engineMemory
  deriving DecidableEq, Repr

/-- The descriptor `WT_ITEM`: `data` are the bytes found at the data pointer, `size` the
size field, `mem` the storage the pointer designates. -/
structure WT_ITEM where
  data : Bytes
  size : Nat
  mem : Buffer
  deriving DecidableEq, Repr

/-- The bytes `std::string((const char *)item.data, item.size)` copies. -/
def WT_ITEM.copy (item : WT_ITEM) : Bytes := item.data.take item.size

/-- A native call made by the binding, with its arguments. -/
inductive EngineCall where
  | wiredtiger_open (path config : Bytes)
  | conn_close (conn : Nat)
  | conn_open_session (conn : Nat)
  | conn_load_extension (conn : Nat) (path : Bytes) (config : Option Bytes)
  | session_close (session : Nat)
  | session_checkpoint (session : Nat)
  | session_create (session : Nat) (uri config : Bytes)
  | session_open_cursor (session : Nat) (uri : Bytes) (config : Option Bytes)
  | session_drop (session : Nat) (uri : Bytes) (config : Option Bytes)
  | session_compact (session : Nat) (uri : Bytes) (config : Option Bytes)
  | session_begin_transaction (session : Nat) (config : Bytes)
  | session_commit_transaction (session : Nat) (config : Bytes)
  | session_rollback_transaction (session : Nat) (config : Bytes)
  | cursor_close (cursor : Nat)
  | cursor_set_key (cursor : Nat) (item : WT_ITEM)
  | cursor_set_value (cursor : Nat) (item : WT_ITEM)
  | cursor_get_key (cursor : Nat)
  | cursor_get_value (cursor : Nat)
  | cursor_search (cursor : Nat)
  | cursor_search_near (cursor : Nat)
  | cursor_next (cursor : Nat)
  | cursor_prev (cursor : Nat)
  | cursor_reset (cursor : Nat)
  | cursor_insert (cursor : Nat)
  | cursor_update (cursor : Nat)
  | cursor_remove (cursor : Nat)
  deriving DecidableEq, Repr

/-- What a native call hands back: its status, and what it wrote through its out-pointer
(a handle for the open calls, an item for `get_key`/`get_value`, the indicator for
`search_near`). -/
structure Reply where
  ret : Int
  handle : Nat
  item : WT_ITEM
  exact : Int
  deriving DecidableEq, Repr

/-- The engine: it answers every native call from its current state, and moves to a new
state; `strerror` is `wiredtiger_strerror`. -/
structure Engine (σ : Type) where
  respond : σ → EngineCall → Reply × σ
  strerror : Int → String

/-- The engine state together with the log of the native calls made so far. -/
structure World (σ : Type) where
  eng : σ
  log : List EngineCall
  deriving DecidableEq

/-- Make one native call: the engine answers and moves on, the call is logged. -/
def World.call {σ : Type} (E : Engine σ) (w : World σ) (c : EngineCall) :
    Reply × World σ :=
  ((E.respond w.eng c).1, ⟨(E.respond w.eng c).2, w.log ++ [c]⟩)

/-! ## WiredTigerCursor -/

/-- The members of `WiredTigerCursor`. -/
structure WiredTigerCursor where
  cursor_ : Nat
  session_ : Nat
  pending_key_ : Bytes
  pending_value_ : Bytes
  deriving DecidableEq, Repr

namespace WiredTigerCursor

/-- The constructor followed by the assignments of `NewInstance`. -/
def NewInstance (cursor session : Nat) : WiredTigerCursor :=
  ⟨cursor, session, [], []⟩

/-- The destructor `~WiredTigerCursor`. -/
def finalize {σ : Type} (E : Engine σ) (self : WiredTigerCursor) (w : World σ) : World σ :=
  if self.cursor_ ≠ 0 then (w.call E (.cursor_close self.cursor_)).2 else w

/-- The method `Set`. -/
def Set {σ : Type} (E : Engine σ) (self : WiredTigerCursor) (info : List JsValue)
    (w : World σ) : Outcome JsValue × WiredTigerCursor × World σ :=
  match info with
  | .string k :: .string v :: _ =>
    let self1 : WiredTigerCursor :=
      ⟨self.cursor_, self.session_, Utf8Value k, Utf8Value v⟩
    let key_item : WT_ITEM := ⟨self1.pending_key_, self1.pending_key_.length, .pendingKey⟩
    let value_item : WT_ITEM :=
      ⟨self1.pending_value_, self1.pending_value_.length, .pendingValue⟩
    if self1.cursor_ = 0 then (.nullDeref, self1, w)
    else
      let w1 := (w.call E (.cursor_set_key self1.cursor_ key_item)).2
      let w2 := (w1.call E (.cursor_set_value self1.cursor_ value_item)).2
      (.ok (.boolean true), self1, w2)
  | _ => (.raise (.typeError "Key and value strings expected"), self, w)

/-- The method `Get`. -/
def Get {σ : Type} (E : Engine σ) (self : WiredTigerCursor) (_info : List JsValue)
    (w : World σ) : Outcome JsValue × WiredTigerCursor × World σ :=
  if self.cursor_ = 0 then (.nullDeref, self, w)
  else
    let rk := w.call E (.cursor_get_key self.cursor_)
    if rk.1.ret ≠ 0 then (.ok .null, self, rk.2)
    else
      let rv := rk.2.call E (.cursor_get_value self.cursor_)
      if rv.1.ret ≠ 0 then (.ok .null, self, rv.2)
      else (.ok (.keyValue (StringNew rk.1.item.copy) (StringNew rv.1.item.copy)), self, rv.2)

/-- The method `Search`. -/
def Search {σ : Type} (E : Engine σ) (self : WiredTigerCursor) (info : List JsValue)
    (w : World σ) : Outcome JsValue × WiredTigerCursor × World σ :=
  match info with
  | .string key :: _ =>
    let key_item : WT_ITEM := ⟨Utf8Value key, (Utf8Value key).length, .callLocal⟩
    if self.cursor_ = 0 then (.nullDeref, self, w)
    else
      let w1 := (w.call E (.cursor_set_key self.cursor_ key_item)).2
      let r := w1.call E (.cursor_search self.cursor_)
      if r.1.ret = 0 then
        let rv := r.2.call E (.cursor_get_value self.cursor_)
        (.ok (.string (StringNew rv.1.item.copy)), self, rv.2)
      else if r.1.ret = WT_NOTFOUND then (.ok .null, self, r.2)
      else (.raise (.error ("Search failed: " ++ E.strerror r.1.ret)), self, r.2)
  | _ => (.raise (.typeError "Key string expected"), self, w)

/-- The method `SearchNear`. -/
def SearchNear {σ : Type} (E : Engine σ) (self : WiredTigerCursor) (info : List JsValue)
    (w : World σ) : Outcome JsValue × WiredTigerCursor × World σ :=
  match info with
  | .arrayBuffer keyBuffer :: _ =>
    let key_item : WT_ITEM := ⟨keyBuffer, keyBuffer.length, .callerArrayBuffer⟩
    if self.cursor_ = 0 then (.nullDeref, self, w)
    else
      let w1 := (w.call E (.cursor_set_key self.cursor_ key_item)).2
      let r := w1.call E (.cursor_search_near self.cursor_)
      if r.1.ret = 0 then (.ok (.exactObj r.1.exact), self, r.2)
      else if r.1.ret = WT_NOTFOUND then (.ok .null, self, r.2)
      else (.raise (.error ("search_near failed: " ++ E.strerror r.1.ret)), self, r.2)
  | _ => (.raise (.typeError "ArrayBuffer expected for searchNear key"), self, w)

/-- The method `Next`. -/
def Next {σ : Type} (E : Engine σ) (self : WiredTigerCursor) (_info : List JsValue)
    (w : World σ) : Outcome JsValue × WiredTigerCursor × World σ :=
  if self.cursor_ = 0 then (.nullDeref, self, w)
  else
    let r := w.call E (.cursor_next self.cursor_)
    if r.1.ret = 0 then
      let rk := r.2.call E (.cursor_get_key self.cursor_)
      let rv := rk.2.call E (.cursor_get_value self.cursor_)
      (.ok (.keyValue (StringNew rk.1.item.copy) (StringNew rv.1.item.copy)), self, rv.2)
    else if r.1.ret = WT_NOTFOUND then (.ok .null, self, r.2)
    else (.raise (.error ("Next failed: " ++ E.strerror r.1.ret)), self, r.2)

/-- The method `Prev`. -/
def Prev {σ : Type} (E : Engine σ) (self : WiredTigerCursor) (_info : List JsValue)
    (w : World σ) : Outcome JsValue × WiredTigerCursor × World σ :=
  if self.cursor_ = 0 then (.nullDeref, self, w)
  else
    let r := w.call E (.cursor_prev self.cursor_)
    if r.1.ret = 0 then
      let rk := r.2.call E (.cursor_get_key self.cursor_)
      let rv := rk.2.call E (.cursor_get_value self.cursor_)
      (.ok (.keyValue (StringNew rk.1.item.copy) (StringNew rv.1.item.copy)), self, rv.2)
    else if r.1.ret = WT_NOTFOUND then (.ok .null, self, r.2)
    else (.raise (.error ("Prev failed: " ++ E.strerror r.1.ret)), self, r.2)

/-- The method `GetRawKey` (JavaScript name `getKey`). -/
def GetRawKey {σ : Type} (E : Engine σ) (self : WiredTigerCursor) (_info : List JsValue)
    (w : World σ) : Outcome JsValue × WiredTigerCursor × World σ :=
  if self.cursor_ = 0 then (.nullDeref, self, w)
  else
    let r := w.call E (.cursor_get_key self.cursor_)
    if r.1.ret ≠ 0 then (.ok .null, self, r.2)
    else (.ok (.arrayBuffer r.1.item.copy), self, r.2)

/-- The method `GetRawValue` (JavaScript name `getValue`). -/
def GetRawValue {σ : Type} (E : Engine σ) (self : WiredTigerCursor) (_info : List JsValue)
    (w : World σ) : Outcome JsValue × WiredTigerCursor × World σ :=
  if self.cursor_ = 0 then (.nullDeref, self, w)
  else
    let r := w.call E (.cursor_get_value self.cursor_)
    if r.1.ret ≠ 0 then (.ok .null, self, r.2)
    else (.ok (.arrayBuffer r.1.item.copy), self, r.2)

/-- The method `SetRawKey`. -/
def SetRawKey {σ : Type} (E : Engine σ) (self : WiredTigerCursor) (info : List JsValue)
    (w : World σ) : Outcome JsValue × WiredTigerCursor × World σ :=
  match info with
  | .arrayBuffer buffer :: _ =>
    let key_item : WT_ITEM := ⟨buffer, buffer.length, .callerArrayBuffer⟩
    if self.cursor_ = 0 then (.nullDeref, self, w)
    else (.ok (.boolean true), self, (w.call E (.cursor_set_key self.cursor_ key_item)).2)
  | _ => (.raise (.typeError "ArrayBuffer expected for key"), self, w)

/-- The method `SetRawValue`. -/
def SetRawValue {σ : Type} (E : Engine σ) (self : WiredTigerCursor) (info : List JsValue)
    (w : World σ) : Outcome JsValue × WiredTigerCursor × World σ :=
  match info with
  | .arrayBuffer buffer :: _ =>
    let value_item : WT_ITEM := ⟨buffer, buffer.length, .callerArrayBuffer⟩
    if self.cursor_ = 0 then (.nullDeref, self, w)
    else (.ok (.boolean true), self, (w.call E (.cursor_set_value self.cursor_ value_item)).2)
  | _ => (.raise (.typeError "ArrayBuffer expected for value"), self, w)

/-- The method `Reset`. -/
def Reset {σ : Type} (E : Engine σ) (self : WiredTigerCursor) (_info : List JsValue)
    (w : World σ) : Outcome JsValue × WiredTigerCursor × World σ :=
  if self.cursor_ = 0 then (.nullDeref, self, w)
  else
    let r := w.call E (.cursor_reset self.cursor_)
    if r.1.ret ≠ 0 then
      (.raise (.error ("Reset failed: " ++ E.strerror r.1.ret)), self, r.2)
    else (.ok (.boolean true), self, r.2)

/-- The method `Insert`. -/
def Insert {σ : Type} (E : Engine σ) (self : WiredTigerCursor) (_info : List JsValue)
    (w : World σ) : Outcome JsValue × WiredTigerCursor × World σ :=
  if self.cursor_ = 0 then (.nullDeref, self, w)
  else
    let r := w.call E (.cursor_insert self.cursor_)
    if r.1.ret ≠ 0 then
      (.raise (.error ("Insert failed: " ++ E.strerror r.1.ret)), self, r.2)
    else (.ok (.boolean true), self, r.2)

/-- The method `Update`. -/
def Update {σ : Type} (E : Engine σ) (self : WiredTigerCursor) (_info : List JsValue)
    (w : World σ) : Outcome JsValue × WiredTigerCursor × World σ :=
  if self.cursor_ = 0 then (.nullDeref, self, w)
  else
    let r := w.call E (.cursor_update self.cursor_)
    if r.1.ret ≠ 0 then
      (.raise (.error ("Update failed: " ++ E.strerror r.1.ret)), self, r.2)
    else (.ok (.boolean true), self, r.2)

/-- The method `Remove`. -/
def Remove {σ : Type} (E : Engine σ) (self : WiredTigerCursor) (_info : List JsValue)
    (w : World σ) : Outcome JsValue × WiredTigerCursor × World σ :=
  if self.cursor_ = 0 then (.nullDeref, self, w)
  else
    let r := w.call E (.cursor_remove self.cursor_)
    if r.1.ret ≠ 0 ∧ r.1.ret ≠ WT_NOTFOUND then
      (.raise (.error ("Remove failed: " ++ E.strerror r.1.ret)), self, r.2)
    else (.ok (.boolean true), self, r.2)

/-- The method `Close`. -/
def Close {σ : Type} (E : Engine σ) (self : WiredTigerCursor) (_info : List JsValue)
    (w : World σ) : Outcome JsValue × WiredTigerCursor × World σ :=
  if self.cursor_ ≠ 0 then
    (.ok (.boolean true), ⟨0, self.session_, self.pending_key_, self.pending_value_⟩,
      (w.call E (.cursor_close self.cursor_)).2)
  else (.ok (.boolean true), self, w)

end WiredTigerCursor

/-! ## The session registry `std::map<std::string, WT_SESSION *>` -/

/-- The strict lexicographic order on byte strings, `std::less<std::string>`: the order
in which a `std::map` keyed by strings is traversed. -/
def lexLt : Bytes → Bytes → Bool
  | [], [] => false
  | [], _ :: _ => true
  | _ :: _, [] => false
  | a :: as, b :: bs =>
    if a.toNat < b.toNat then true else if a.toNat = b.toNat then lexLt as bs else false

/-- The assignment `m[k] = v` on the entries of a map, kept in key order. -/
def insertEntry (k : Bytes) (v : Nat) : List (Bytes × Nat) → List (Bytes × Nat)
  | [] => [(k, v)]
  | (k1, v1) :: t =>
    if lexLt k k1 then (k, v) :: (k1, v1) :: t
    else if k = k1 then (k, v) :: t
    else (k1, v1) :: insertEntry k v t

/-- The calls `find(k)` then `erase(it)` when found, on the entries of a map. -/
def eraseEntry (k : Bytes) : List (Bytes × Nat) → List (Bytes × Nat)
  | [] => []
  | (k1, v1) :: t => if k = k1 then t else (k1, v1) :: eraseEntry k t

/-- The call `find(k)` on the entries of a map. -/
def findEntry (k : Bytes) : List (Bytes × Nat) → Option Nat
  | [] => none
  | (k1, v1) :: t => if k = k1 then some v1 else findEntry k t

/-- The entries are in strictly increasing key order (so keys are unique). -/
def KeySorted (l : List (Bytes × Nat)) : Prop :=
  l.Pairwise (fun a b => lexLt a.1 b.1 = true)

/-! The order facts needed for the map operations to preserve key order. -/

theorem lexLt_irrefl (a : Bytes) : lexLt a a = false := by
  induction a with
  | nil => rfl
  | cons x xs ih => simp [lexLt, ih]

theorem lexLt_trans : ∀ (a b c : Bytes), lexLt a b = true → lexLt b c = true → lexLt a c = true
  | [], [], _, h, _ => by simp [lexLt] at h
  | [], _ :: _, [], _, h => by simp [lexLt] at h
  | [], _ :: _, _ :: _, _, _ => by simp [lexLt]
  | _ :: _, [], _, h, _ => by simp [lexLt] at h
  | _ :: _, _ :: _, [], _, h => by simp [lexLt] at h
  | x :: xs, y :: ys, z :: zs, h1, h2 => by
    simp only [lexLt] at h1 h2 ⊢
    by_cases hxy : x.toNat < y.toNat
    · by_cases hyz : y.toNat < z.toNat
      · have : x.toNat < z.toNat := by omega
        simp [this]
      · simp only [hyz, if_false] at h2
        by_cases hyz2 : y.toNat = z.toNat
        · have : x.toNat < z.toNat := by omega
          simp [this]
        · simp [hyz2] at h2
    · simp only [hxy, if_false] at h1
      by_cases hxy2 : x.toNat = y.toNat
      · simp only [hxy2, if_true] at h1
        by_cases hyz : y.toNat < z.toNat
        · have : x.toNat < z.toNat := by omega
          simp [this]
        · simp only [hyz, if_false] at h2
          by_cases hyz2 : y.toNat = z.toNat
          · simp only [hyz2, if_true] at h2
            have h3 : ¬ x.toNat < z.toNat := by omega
            have h4 : x.toNat = z.toNat := by omega
            rw [if_neg h3, if_pos h4]
            exact lexLt_trans xs ys zs h1 h2
          · simp [hyz2] at h2
      · simp [hxy2] at h1

theorem lexLt_total : ∀ (a b : Bytes), lexLt a b = false → a ≠ b → lexLt b a = true
  | [], [], _, h => absurd rfl h
  | [], _ :: _, h, _ => by simp [lexLt] at h
  | _ :: _, [], _, _ => by simp [lexLt]
  | x :: xs, y :: ys, h1, h2 => by
    simp only [lexLt] at h1 ⊢
    by_cases hxy : x.toNat < y.toNat
    · simp [hxy] at h1
    · simp only [hxy, if_false] at h1
      by_cases hxy2 : x.toNat = y.toNat
      · simp only [hxy2, if_true] at h1
        have hx : x = y := UInt8.ext_iff.mpr hxy2
        have h3 : ¬ y.toNat < x.toNat := by omega
        rw [if_neg h3, if_pos hxy2.symm]
        apply lexLt_total xs ys h1
        intro h; apply h2; rw [hx, h]
      · have : y.toNat < x.toNat := by omega
        simp [this]

theorem mem_insertEntry {k : Bytes} {v : Nat} {p : Bytes × Nat} :
    ∀ {l : List (Bytes × Nat)}, p ∈ insertEntry k v l → p = (k, v) ∨ p ∈ l
  | [], h => by simp [insertEntry] at h; exact Or.inl h
  | (k1, v1) :: t, h => by
    simp only [insertEntry] at h
    split at h
    · simp at h; rcases h with h | h | h <;> simp [h]
    · split at h
      · simp at h; rcases h with h | h <;> simp [h]
      · simp at h
        rcases h with h | h
        · simp [h]
        · rcases mem_insertEntry h with h | h <;> simp [h]

theorem keySorted_insertEntry (k : Bytes) (v : Nat) :
    ∀ (l : List (Bytes × Nat)), KeySorted l → KeySorted (insertEntry k v l)
  | [], _ => by simp [insertEntry, KeySorted]
  | (k1, v1) :: t, h => by
    unfold KeySorted at h
    rw [List.pairwise_cons] at h
    simp only [insertEntry]
    split
    · rename_i hlt
      unfold KeySorted
      rw [List.pairwise_cons, List.pairwise_cons]
      refine ⟨?_, h⟩
      intro p hp
      rcases List.mem_cons.mp hp with rfl | hp
      · exact hlt
      · exact lexLt_trans _ _ _ hlt (h.1 p hp)
    · split
      · rename_i _ heq
        subst heq
        unfold KeySorted
        rw [List.pairwise_cons]
        exact h
      · rename_i hnlt hne
        unfold KeySorted
        rw [List.pairwise_cons]
        refine ⟨?_, keySorted_insertEntry k v t h.2⟩
        intro p hp
        rcases mem_insertEntry hp with rfl | hp
        · exact lexLt_total _ _ (by simpa using hnlt) hne
        · exact h.1 p hp

theorem eraseEntry_sublist (k : Bytes) :
    ∀ (l : List (Bytes × Nat)), (eraseEntry k l).Sublist l
  | [] => by simp [eraseEntry]
  | (k1, v1) :: t => by
    simp only [eraseEntry]
    split
    · exact List.sublist_cons_self _ _
    · exact (eraseEntry_sublist k t).cons₂ _

/-- The registry `std::map<std::string, WT_SESSION *>`: entries in strictly increasing key
order. -/
structure SessionMap where
  entries : List (Bytes × Nat)
  sorted : KeySorted entries

instance : DecidableEq SessionMap := fun a b =>
  decidable_of_iff (a.entries = b.entries) (by cases a; cases b; simp)

namespace SessionMap

/-- The empty map. -/
def empty : SessionMap := ⟨[], List.Pairwise.nil⟩

/-- The assignment `m[k] = v`. -/
def insert (m : SessionMap) (k : Bytes) (v : Nat) : SessionMap :=
  ⟨insertEntry k v m.entries, keySorted_insertEntry k v m.entries m.sorted⟩

/-- The calls `it = m.find(k); if (it != m.end()) m.erase(it)`. -/
def erase (m : SessionMap) (k : Bytes) : SessionMap :=
  ⟨eraseEntry k m.entries, List.Pairwise.sublist (eraseEntry_sublist k m.entries) m.sorted⟩

/-- The call `m.find(k)`: the mapped handle, if the key is present. -/
def find (m : SessionMap) (k : Bytes) : Option Nat := findEntry k m.entries

end SessionMap

/-! ## WiredTigerSession -/

/-- The members of `WiredTigerSession`, and the string property `__nativeSessionPtr`
that `NewInstance` sets on the JavaScript object. -/
structure WiredTigerSession where
  session_ : Nat
  nativeSessionPtr : Option JsString
  deriving DecidableEq, Repr

namespace WiredTigerSession

/-- The constructor followed by the assignments of `NewInstance`. -/
def NewInstance (session : Nat) : WiredTigerSession :=
  ⟨session, if session ≠ 0 then some (StringNew (to_string session)) else none⟩

/-- The destructor `~WiredTigerSession`: it makes no native call. -/
def finalize {σ : Type} (_E : Engine σ) (_self : WiredTigerSession) (w : World σ) : World σ :=
  w

/-- The optional string argument `info[i]` with its default, as in
`info.Length() > i && info[i].IsString() ? ... : dflt`. -/
def optString (rest : List JsValue) (dflt : Bytes) : Bytes :=
  match rest with
  | .string c :: _ => Utf8Value c
  | _ => dflt

/-- The argument `config.empty() ? nullptr : config.c_str()`. -/
def optConfig (config : Bytes) : Option Bytes :=
  if config = [] then none else some (c_str config)

/-- The method `CreateTable`. -/
def CreateTable {σ : Type} (E : Engine σ) (self : WiredTigerSession) (info : List JsValue)
    (w : World σ) : Outcome JsValue × WiredTigerSession × World σ :=
  match info with
  | .string tableName :: rest =>
    let config := optString rest (ascii "key_format=S,value_format=S")
    let uri := ascii "table:" ++ Utf8Value tableName
    if self.session_ = 0 then (.nullDeref, self, w)
    else
      let r := w.call E (.session_create self.session_ (c_str uri) (c_str config))
      if r.1.ret ≠ 0 ∧ r.1.ret ≠ EEXIST then
        (.raise (.error ("Failed to create table: " ++ E.strerror r.1.ret)), self, r.2)
      else (.ok (.boolean true), self, r.2)
  | _ => (.raise (.typeError "String expected for table name"), self, w)

/-- The method `OpenCursor`. -/
def OpenCursor {σ : Type} (E : Engine σ) (self : WiredTigerSession) (info : List JsValue)
    (w : World σ) : Outcome WiredTigerCursor × WiredTigerSession × World σ :=
  match info with
  | .string tableName :: _ =>
    let uri := ascii "table:" ++ Utf8Value tableName
    if self.session_ = 0 then (.nullDeref, self, w)
    else
      let r := w.call E (.session_open_cursor self.session_ (c_str uri) none)
      if r.1.ret ≠ 0 then
        (.raise (.error ("Failed to open cursor: " ++ E.strerror r.1.ret)), self, r.2)
      else (.ok (WiredTigerCursor.NewInstance r.1.handle self.session_), self, r.2)
  | _ => (.raise (.typeError "String expected for table name"), self, w)

/-- The method `OpenCursorWithConfig`. -/
def OpenCursorWithConfig {σ : Type} (E : Engine σ) (self : WiredTigerSession)
    (info : List JsValue) (w : World σ) :
    Outcome WiredTigerCursor × WiredTigerSession × World σ :=
  match info with
  | .string uri :: rest =>
    let config := optString rest []
    if self.session_ = 0 then (.nullDeref, self, w)
    else
      let r := w.call E (.session_open_cursor self.session_ (c_str (Utf8Value uri))
        (optConfig config))
      if r.1.ret ≠ 0 then
        (.raise (.error ("Failed to open cursor: " ++ E.strerror r.1.ret)), self, r.2)
      else (.ok (WiredTigerCursor.NewInstance r.1.handle self.session_), self, r.2)
  | _ => (.raise (.typeError "URI string expected for cursor"), self, w)

/-- The method `CreateIndex`. -/
def CreateIndex {σ : Type} (E : Engine σ) (self : WiredTigerSession) (info : List JsValue)
    (w : World σ) : Outcome JsValue × WiredTigerSession × World σ :=
  match info with
  | .string uri :: .string config :: _ =>
    if self.session_ = 0 then (.nullDeref, self, w)
    else
      let r := w.call E
        (.session_create self.session_ (c_str (Utf8Value uri)) (c_str (Utf8Value config)))
      if r.1.ret ≠ 0 ∧ r.1.ret ≠ EEXIST then
        (.raise (.error ("Failed to create index: " ++ E.strerror r.1.ret)), self, r.2)
      else (.ok (.boolean true), self, r.2)
  | _ => (.raise (.typeError "URI and config strings expected for createIndex"), self, w)

/-- The method `Drop`. -/
def Drop {σ : Type} (E : Engine σ) (self : WiredTigerSession) (info : List JsValue)
    (w : World σ) : Outcome JsValue × WiredTigerSession × World σ :=
  match info with
  | .string uri :: rest =>
    let config := optString rest []
    if self.session_ = 0 then (.nullDeref, self, w)
    else
      let r := w.call E (.session_drop self.session_ (c_str (Utf8Value uri)) (optConfig config))
      if r.1.ret ≠ 0 ∧ r.1.ret ≠ WT_NOTFOUND then
        (.raise (.error ("Failed to drop object: " ++ E.strerror r.1.ret)), self, r.2)
      else (.ok (.boolean true), self, r.2)
  | _ => (.raise (.typeError "URI string expected for drop"), self, w)

/-- The method `Compact`. -/
def Compact {σ : Type} (E : Engine σ) (self : WiredTigerSession) (info : List JsValue)
    (w : World σ) : Outcome JsValue × WiredTigerSession × World σ :=
  match info with
  | .string uri :: rest =>
    let config := optString rest []
    if self.session_ = 0 then (.nullDeref, self, w)
    else
      let r := w.call E (.session_compact self.session_ (c_str (Utf8Value uri)) (optConfig config))
      if r.1.ret ≠ 0 then
        (.raise (.error ("Failed to compact object: " ++ E.strerror r.1.ret)), self, r.2)
      else (.ok (.boolean true), self, r.2)
  | _ => (.raise (.typeError "URI string expected for compact"), self, w)

/-- The method `Close`. -/
def Close {σ : Type} (E : Engine σ) (self : WiredTigerSession) (_info : List JsValue)
    (w : World σ) : Outcome JsValue × WiredTigerSession × World σ :=
  if self.session_ ≠ 0 then
    let r := w.call E (.session_close self.session_)
    if r.1.ret ≠ 0 then
      (.raise (.error ("Failed to close session: " ++ E.strerror r.1.ret)), self, r.2)
    else (.ok (.boolean true), ⟨0, self.nativeSessionPtr⟩, r.2)
  else (.ok (.boolean true), self, w)

/-- The method `BeginTransaction`. -/
def BeginTransaction {σ : Type} (E : Engine σ) (self : WiredTigerSession)
    (info : List JsValue) (w : World σ) : Outcome JsValue × WiredTigerSession × World σ :=
  let config := optString info []
  if self.session_ = 0 then (.nullDeref, self, w)
  else
    let r := w.call E (.session_begin_transaction self.session_ (c_str config))
    if r.1.ret ≠ 0 then
      (.raise (.error ("Failed to begin transaction: " ++ E.strerror r.1.ret)), self, r.2)
    else (.ok (.boolean true), self, r.2)

/-- The method `CommitTransaction`. -/
def CommitTransaction {σ : Type} (E : Engine σ) (self : WiredTigerSession)
    (info : List JsValue) (w : World σ) : Outcome JsValue × WiredTigerSession × World σ :=
  let config := optString info []
  if self.session_ = 0 then (.nullDeref, self, w)
  else
    let r := w.call E (.session_commit_transaction self.session_ (c_str config))
    if r.1.ret ≠ 0 then
      (.raise (.error ("Failed to commit transaction: " ++ E.strerror r.1.ret)), self, r.2)
    else (.ok (.boolean true), self, r.2)

/-- The method `RollbackTransaction`. -/
def RollbackTransaction {σ : Type} (E : Engine σ) (self : WiredTigerSession)
    (info : List JsValue) (w : World σ) : Outcome JsValue × WiredTigerSession × World σ :=
  let config := optString info []
  if self.session_ = 0 then (.nullDeref, self, w)
  else
    let r := w.call E (.session_rollback_transaction self.session_ (c_str config))
    if r.1.ret ≠ 0 then
      (.raise (.error ("Failed to rollback transaction: " ++ E.strerror r.1.ret)), self, r.2)
    else (.ok (.boolean true), self, r.2)

end WiredTigerSession

/-! ## WiredTigerConnection -/

/-- The members of `WiredTigerConnection`. -/
structure WiredTigerConnection where
  conn_ : Nat
  sessions_ : SessionMap
  deriving DecidableEq

/-- The loop `for (auto &pair : sessions_) if (pair.second) pair.second->close(...)`, over
the entries in key order; the status of each close is discarded. -/
def closeSessions {σ : Type} (E : Engine σ) : List (Bytes × Nat) → World σ → World σ
  | [], w => w
  | (_, session) :: rest, w =>
    closeSessions E rest (if session ≠ 0 then (w.call E (.session_close session)).2 else w)

namespace WiredTigerConnection

/-- The method `Open`; the engine writes the connection handle through `&conn_`. -/
def Open {σ : Type} (E : Engine σ) (self : WiredTigerConnection) (info : List JsValue)
    (w : World σ) : Outcome JsValue × WiredTigerConnection × World σ :=
  match info with
  | .string path :: rest =>
    let config := WiredTigerSession.optString rest (ascii "create,cache_size=500M")
    let r := w.call E (.wiredtiger_open (c_str (Utf8Value path)) (c_str config))
    let self1 : WiredTigerConnection := ⟨r.1.handle, self.sessions_⟩
    if r.1.ret ≠ 0 then
      (.raise (.error ("Failed to open WiredTiger connection: " ++ E.strerror r.1.ret)),
        self1, r.2)
    else (.ok (.boolean true), self1, r.2)
  | _ => (.raise (.typeError "String expected for path"), self, w)

/-- The private method `CloseInternal`. -/
def CloseInternal {σ : Type} (E : Engine σ) (self : WiredTigerConnection) (w : World σ) :
    WiredTigerConnection × World σ :=
  let w1 := closeSessions E self.sessions_.entries w
  if self.conn_ ≠ 0 then
    (⟨0, SessionMap.empty⟩, (w1.call E (.conn_close self.conn_)).2)
  else (⟨self.conn_, SessionMap.empty⟩, w1)

/-- The destructor `~WiredTigerConnection`. -/
def finalize {σ : Type} (E : Engine σ) (self : WiredTigerConnection) (w : World σ) :
    World σ :=
  (CloseInternal E self w).2

/-- The method `Close`. -/
def Close {σ : Type} (E : Engine σ) (self : WiredTigerConnection) (_info : List JsValue)
    (w : World σ) : Outcome JsValue × WiredTigerConnection × World σ :=
  let w1 := closeSessions E self.sessions_.entries w
  let r := CloseInternal E ⟨self.conn_, SessionMap.empty⟩ w1
  (.ok (.boolean true), r.1, r.2)

/-- The method `OpenSession`.  When the engine reports success but hands back a null
session, `NewInstance` sets no `__nativeSessionPtr`; reading it as a string then leaves a
TypeError pending and yields the empty string, under which the null handle is stored. -/
def OpenSession {σ : Type} (E : Engine σ) (self : WiredTigerConnection)
    (_info : List JsValue) (w : World σ) :
    Outcome WiredTigerSession × WiredTigerConnection × World σ :=
  if self.conn_ = 0 then (.raise (.error "Connection not open"), self, w)
  else
    let r := w.call E (.conn_open_session self.conn_)
    if r.1.ret ≠ 0 then
      (.raise (.error ("Failed to open session: " ++ E.strerror r.1.ret)), self, r.2)
    else
      let sessionObj := WiredTigerSession.NewInstance r.1.handle
      match sessionObj.nativeSessionPtr with
      | some sessionId =>
        (.ok sessionObj,
          ⟨self.conn_, self.sessions_.insert (Utf8Value sessionId) r.1.handle⟩, r.2)
      | none =>
        (.raise (.typeError "A string was expected"),
          ⟨self.conn_, self.sessions_.insert [] r.1.handle⟩, r.2)

/-- The method `Checkpoint`. -/
def Checkpoint {σ : Type} (E : Engine σ) (self : WiredTigerConnection)
    (_info : List JsValue) (w : World σ) :
    Outcome JsValue × WiredTigerConnection × World σ :=
  if self.conn_ = 0 then (.raise (.error "Connection not open"), self, w)
  else
    let r := w.call E (.conn_open_session self.conn_)
    if r.1.ret ≠ 0 then
      (.raise (.error ("Failed to open session for checkpoint: " ++ E.strerror r.1.ret)),
        self, r.2)
    else
      let session := r.1.handle
      if session = 0 then (.nullDeref, self, r.2)
      else
        let rc := r.2.call E (.session_checkpoint session)
        let w3 := (rc.2.call E (.session_close session)).2
        if rc.1.ret ≠ 0 then
          (.raise (.error ("Checkpoint failed: " ++ E.strerror rc.1.ret)), self, w3)
        else (.ok (.boolean true), self, w3)

/-- The method `LoadExtension`. -/
def LoadExtension {σ : Type} (E : Engine σ) (self : WiredTigerConnection)
    (info : List JsValue) (w : World σ) :
    Outcome JsValue × WiredTigerConnection × World σ :=
  if self.conn_ = 0 then (.raise (.error "Connection not open"), self, w)
  else
    match info with
    | .string path :: rest =>
      let config := WiredTigerSession.optString rest []
      let r := w.call E
        (.conn_load_extension self.conn_ (c_str (Utf8Value path))
          (WiredTigerSession.optConfig config))
      if r.1.ret ≠ 0 then
        (.raise (.error ("Failed to load extension: " ++ E.strerror r.1.ret)), self, r.2)
      else (.ok (.boolean true), self, r.2)
    | _ => (.raise (.typeError "Extension path expected"), self, w)

/-- The method `ReleaseSession`. -/
def ReleaseSession {σ : Type} (_E : Engine σ) (self : WiredTigerConnection)
    (info : List JsValue) (w : World σ) :
    Outcome JsValue × WiredTigerConnection × World σ :=
  match info with
  | .string sessionId :: _ =>
    (.ok (.boolean true), ⟨self.conn_, self.sessions_.erase (Utf8Value sessionId)⟩, w)
  | _ => (.raise (.typeError "String expected for session identifier"), self, w)

end WiredTigerConnection

/-! ## The caller's view: wrapper objects and sequences of operations -/

/-- A connection wrapper, the session and cursor wrappers created from it (a slot is
`none` once its wrapper has been finalized), and the engine with its call log. -/
structure System (σ : Type) where
  world : World σ
  conn : WiredTigerConnection
  sessions : List (Option WiredTigerSession)
  cursors : List (Option WiredTigerCursor)
  deriving DecidableEq

/-- The operations a caller can apply to the wrappers; sessions and cursors are named by
their position in creation order. -/
inductive Op where
  | openSession
  | sessionClose (i : Nat)
  | releaseSession (info : List JsValue)
  | connectionClose
  | checkpoint
  | openCursor (i : Nat) (info : List JsValue)
  | openCursorWithConfig (i : Nat) (info : List JsValue)
  | cursorClose (j : Nat)
  | finalizeCursor (j : Nat)
  | finalizeSession (i : Nat)
  | finalizeConnection
  deriving DecidableEq, Repr

/-- The wrapper in slot `i`, if it exists and is still alive. -/
def slot {α : Type} (l : List (Option α)) (i : Nat) : Option α := (l.get? i).join

/-- Apply one operation.  An operation on a wrapper that does not exist leaves the system
unchanged; a new wrapper is appended when an open call returns one. -/
def System.step {σ : Type} (E : Engine σ) (s : System σ) : Op → System σ
  | .openSession =>
    let r := s.conn.OpenSession E [] s.world
    match r.1 with
    | .ok obj => ⟨r.2.2, r.2.1, s.sessions ++ [some obj], s.cursors⟩
    | _ => ⟨r.2.2, r.2.1, s.sessions, s.cursors⟩
  | .sessionClose i =>
    match slot s.sessions i with
    | some obj =>
      let r := obj.Close E [] s.world
      ⟨r.2.2, s.conn, s.sessions.set i (some r.2.1), s.cursors⟩
    | none => s
  | .releaseSession info =>
    let r := s.conn.ReleaseSession E info s.world
    ⟨r.2.2, r.2.1, s.sessions, s.cursors⟩
  | .connectionClose =>
    let r := s.conn.Close E [] s.world
    ⟨r.2.2, r.2.1, s.sessions, s.cursors⟩
  | .checkpoint =>
    let r := s.conn.Checkpoint E [] s.world
    ⟨r.2.2, r.2.1, s.sessions, s.cursors⟩
  | .openCursor i info =>
    match slot s.sessions i with
    | some obj =>
      let r := obj.OpenCursor E info s.world
      match r.1 with
      | .ok c => ⟨r.2.2, s.conn, s.sessions.set i (some r.2.1), s.cursors ++ [some c]⟩
      | _ => ⟨r.2.2, s.conn, s.sessions.set i (some r.2.1), s.cursors⟩
    | none => s
  | .openCursorWithConfig i info =>
    match slot s.sessions i with
    | some obj =>
      let r := obj.OpenCursorWithConfig E info s.world
      match r.1 with
      | .ok c => ⟨r.2.2, s.conn, s.sessions.set i (some r.2.1), s.cursors ++ [some c]⟩
      | _ => ⟨r.2.2, s.conn, s.sessions.set i (some r.2.1), s.cursors⟩
    | none => s
  | .cursorClose j =>
    match slot s.cursors j with
    | some c =>
      let r := c.Close E [] s.world
      ⟨r.2.2, s.conn, s.sessions, s.cursors.set j (some r.2.1)⟩
    | none => s
  | .finalizeCursor j =>
    match slot s.cursors j with
    | some c => ⟨c.finalize E s.world, s.conn, s.sessions, s.cursors.set j none⟩
    | none => s
  | .finalizeSession i =>
    match slot s.sessions i with
    | some obj => ⟨obj.finalize E s.world, s.conn, s.sessions.set i none, s.cursors⟩
    | none => s
  | .finalizeConnection =>
    let r := s.conn.CloseInternal E s.world
    ⟨r.2, r.1, s.sessions, s.cursors⟩

/-- Apply a sequence of operations, first to last. -/
def System.run {σ : Type} (E : Engine σ) (s : System σ) (ops : List Op) : System σ :=
  ops.foldl (System.step E) s

/-- How often the engine's session close was called on handle `h` in a log. -/
def sessionCloses (log : List EngineCall) (h : Nat) : Nat :=
  log.count (.session_close h)

/-- The handles the session-closing loop closes, in order: the non-null mapped values. -/
def closedHandles (l : List (Bytes × Nat)) : List Nat :=
  (l.map Prod.snd).filter (fun h => h ≠ 0)

/-- Every non-null handle in the registry is stored under its identifier
`std::to_string`: the only way `OpenSession` adds an entry for a non-null handle. -/
def IdKeyed (m : SessionMap) : Prop := ∀ p ∈ m.entries, p.2 ≠ 0 → p.1 = to_string p.2

/-- The closes a connection still owes handle `h`: 1 when `h` is in the registry under
its identifier (closing the connection will then close it), 0 otherwise. -/
def owed (n : WiredTigerConnection) (h : Nat) : Nat :=
  if n.sessions_.find (to_string h) = some h then 1 else 0

/-- Whether operation `op`, applied in state `s`, calls the engine's session close on `h`
through a Session wrapper or inside `checkpoint()`: 1 for `Session.close()` on a live
wrapper that holds `h`, and for `checkpoint()` on an open connection whose internal
`open_session` succeeds with session `h`; 0 otherwise. -/
def directCloses {σ : Type} (E : Engine σ) (h : Nat) (s : System σ) : Op → Nat
  | .sessionClose i =>
    match slot s.sessions i with
    | some obj => if obj.session_ = h then 1 else 0
    | none => 0
  | .checkpoint =>
    if s.conn.conn_ ≠ 0 ∧
        (E.respond s.world.eng (.conn_open_session s.conn.conn_)).1.ret = 0 ∧
        (E.respond s.world.eng (.conn_open_session s.conn.conn_)).1.handle = h then 1
    else 0
  | _ => 0

/-- Whether operation `op`, applied in state `s`, puts `h` into the registry anew: 1 for
`openSession()` on an open connection whose `open_session` succeeds with session `h`
while `h` is not registered; 0 otherwise. -/
def registrations {σ : Type} (E : Engine σ) (h : Nat) (s : System σ) : Op → Nat
  | .openSession =>
    if s.conn.conn_ ≠ 0 ∧
        (E.respond s.world.eng (.conn_open_session s.conn.conn_)).1.ret = 0 ∧
        (E.respond s.world.eng (.conn_open_session s.conn.conn_)).1.handle = h ∧
        s.conn.sessions_.find (to_string h) ≠ some h then 1
    else 0
  | _ => 0

/-- Whether operation `op`, applied in state `s`, takes `h` out of the registry without
closing it: 1 for `releaseSession(id)` with `id` the identifier of `h` while `h` is
registered; 0 otherwise. -/
def releases {σ : Type} (h : Nat) (s : System σ) : Op → Nat
  | .releaseSession (.string sessionId :: _) =>
    if Utf8Value sessionId = to_string h ∧
        s.conn.sessions_.find (to_string h) = some h then 1
    else 0
  | _ => 0

/-- The sum of `f` over a sequence of operations, each taken in the state it is applied
in. -/
def countAlong {σ : Type} (f : System σ → Op → Nat) (E : Engine σ) :
    System σ → List Op → Nat
  | _, [] => 0
  | s, op :: ops => f s op + countAlong f E (s.step E op) ops

/-- The value of a string of decimal digits, continuing from `acc`. -/
def digitsValue (acc : Nat) (l : Bytes) : Nat :=
  l.foldl (fun a b => a * 10 + (b.toNat - 48)) acc

/-! ## Concrete engines used to evaluate the model -/

/-- An item the engine has written nothing into. -/
def noItem : WT_ITEM := ⟨[], 0, .engineMemory⟩

/-- The stateless engine that answers every call with status `ret` and, for the open
calls, the handle `handle`. -/
def constEngine (ret : Int) (handle : Nat) : Engine Unit :=
  ⟨fun _ _ => (⟨ret, handle, noItem, 0⟩, ()), fun n => toString n⟩

/-- An engine that counts the handles it has handed out: every call returns status 0, and
each `open_session` and `open_cursor` hands back the next handle, from 10 on. -/
def freshEngine : Engine Nat :=
  ⟨fun k c =>
    match c with
    | .conn_open_session _ => (⟨0, 10 + k, noItem, 0⟩, k + 1)
    | .session_open_cursor _ _ _ => (⟨0, 10 + k, noItem, 0⟩, k + 1)
    | _ => (⟨0, 0, noItem, 0⟩, k),
   fun n => toString n⟩

/-- The stateless engine that answers every call with status `ret`; `open_session` hands
back session handle 5 and `open_cursor` cursor handle 7. -/
def demoEngine (ret : Int) : Engine Unit :=
  ⟨fun _ c =>
    match c with
    | .conn_open_session _ => (⟨ret, 5, noItem, 0⟩, ())
    | .session_open_cursor _ _ _ => (⟨ret, 7, noItem, 0⟩, ())
    | _ => (⟨ret, 0, noItem, 0⟩, ()),
   fun n => toString n⟩

/-! ## The engine's contract for a cursor over a table of raw items -/

/-- What the engine promises for the cursor handle `c` when keys and values travel as
`WT_ITEM`s (raw byte items): the engine state determines the key and the value currently
held by the cursor and the contents of the table, and
* `set_key` / `set_value` make the cursor hold the `size` bytes found at the item's data
  pointer, and change nothing else;
* an `insert` that returns 0 has stored the held value under the held key;
* a `search` whose held key is in the table returns 0 and makes the cursor hold the
  stored value;
* `get_value` hands back an item designating the held value.
This is the engine's side of the round trip; it is an assumption about the engine, which
is not part of the sources. -/
def RawTableCursor {σ : Type} (E : Engine σ) (c : Nat) : Prop :=
  ∃ (key value : σ → Bytes) (table : σ → Bytes → Option Bytes),
    (∀ s item,
      key (E.respond s (.cursor_set_key c item)).2 = item.copy ∧
      value (E.respond s (.cursor_set_key c item)).2 = value s ∧
      table (E.respond s (.cursor_set_key c item)).2 = table s) ∧
    (∀ s item,
      value (E.respond s (.cursor_set_value c item)).2 = item.copy ∧
      key (E.respond s (.cursor_set_value c item)).2 = key s ∧
      table (E.respond s (.cursor_set_value c item)).2 = table s) ∧
    (∀ s, (E.respond s (.cursor_insert c)).1.ret = 0 →
      table (E.respond s (.cursor_insert c)).2 (key s) = some (value s)) ∧
    (∀ s v, table s (key s) = some v →
      (E.respond s (.cursor_search c)).1.ret = 0 ∧
      value (E.respond s (.cursor_search c)).2 = v) ∧
    (∀ s, (E.respond s (.cursor_get_value c)).1.item.copy = value s)

/-- State of the reference engine: one table, and the key and value held by its cursor. -/
structure RawState where
  table : List (Bytes × Bytes)
  key : Bytes
  value : Bytes
  deriving DecidableEq, Repr

/-- A reference engine with one table of raw items and one cursor: `insert` puts the held
pair in front of the table, `search` finds the first pair with the held key or answers
`WT_NOTFOUND`, the getters hand back the held key and value, every other call returns
0. -/
def rawEngine : Engine RawState :=
  ⟨fun s c =>
    match c with
    | .cursor_set_key _ item => (⟨0, 0, noItem, 0⟩, ⟨s.table, item.copy, s.value⟩)
    | .cursor_set_value _ item => (⟨0, 0, noItem, 0⟩, ⟨s.table, s.key, item.copy⟩)
    | .cursor_insert _ => (⟨0, 0, noItem, 0⟩, ⟨(s.key, s.value) :: s.table, s.key, s.value⟩)
    | .cursor_search _ =>
      match s.table.lookup s.key with
      | some v => (⟨0, 0, noItem, 0⟩, ⟨s.table, s.key, v⟩)
      | none => (⟨WT_NOTFOUND, 0, noItem, 0⟩, s)
    | .cursor_get_key _ => (⟨0, 0, ⟨s.key, s.key.length, .engineMemory⟩, 0⟩, s)
    | .cursor_get_value _ => (⟨0, 0, ⟨s.value, s.value.length, .engineMemory⟩, 0⟩, s)
    | _ => (⟨0, 0, noItem, 0⟩, s),
   fun n => toString n⟩

/-! ## Facts about the string conversions -/

theorem toNat_ofNat8 (x : Nat) (h : x < 256) : (UInt8.ofNat x).toNat = x :=
  Nat.mod_eq_of_lt h

theorem utf8Step_lead (st : Utf8State) (b : Nat) (h : st.needed = 0) :
    utf8Step st b = utf8Lead b := by
  simp [utf8Step, h]

theorem utf8Step_more (st : Utf8State) (b k : Nat) (hn : st.needed = k + 2)
    (hl : st.lower ≤ b) (hu : b ≤ st.upper) :
    utf8Step st b = ([], ⟨st.cp * 0x40 + (b - 0x80), k + 1, 0x80, 0xBF⟩) := by
  unfold utf8Step
  rw [if_neg (by omega), if_pos ⟨hl, hu⟩, if_neg (by omega), hn]
  rfl

theorem utf8Step_last (st : Utf8State) (b : Nat) (hn : st.needed = 1)
    (hl : st.lower ≤ b) (hu : b ≤ st.upper) :
    utf8Step st b = ([st.cp * 0x40 + (b - 0x80)], utf8Init) := by
  unfold utf8Step
  rw [if_neg (by omega), if_pos ⟨hl, hu⟩, if_pos hn]

theorem utf8Decode_encode (cp : Nat) (h : isScalar cp) (rest : Bytes) :
    utf8Decode utf8Init (utf8Encode cp ++ rest) = cp :: utf8Decode utf8Init rest := by
  obtain ⟨hmax, hsur⟩ := h
  unfold utf8Encode
  by_cases h1 : cp < 0x80
  · rw [if_pos h1]
    simp only [List.singleton_append, utf8Decode]
    rw [toNat_ofNat8 _ (by omega), utf8Step_lead _ _ rfl]
    unfold utf8Lead
    rw [if_pos h1]
    rfl
  · rw [if_neg h1]
    by_cases h2 : cp < 0x800
    · rw [if_pos h2]
      simp only [List.cons_append, List.nil_append, utf8Decode]
      rw [toNat_ofNat8 _ (by omega), toNat_ofNat8 _ (by omega), utf8Step_lead _ _ rfl]
      have hl : utf8Lead (0xC0 + cp / 0x40) = ([], ⟨cp / 0x40, 1, 0x80, 0xBF⟩) := by
        unfold utf8Lead
        rw [if_neg (by omega), if_pos (by omega)]
        simp
      rw [hl]
      simp only [List.nil_append]
      rw [utf8Step_last _ _ rfl (by simp only; omega) (by simp only; omega)]
      simp only [List.singleton_append, List.cons.injEq]
      exact ⟨by omega, rfl⟩
    · rw [if_neg h2]
      by_cases h3 : cp < 0x10000
      · rw [if_pos h3]
        simp only [List.cons_append, List.nil_append, utf8Decode]
        rw [toNat_ofNat8 _ (by omega), toNat_ofNat8 _ (by omega), toNat_ofNat8 _ (by omega),
          utf8Step_lead _ _ rfl]
        have hl : utf8Lead (0xE0 + cp / 0x1000) =
            ([], ⟨cp / 0x1000, 2, if 0xE0 + cp / 0x1000 = 0xE0 then 0xA0 else 0x80,
              if 0xE0 + cp / 0x1000 = 0xED then 0x9F else 0xBF⟩) := by
          unfold utf8Lead
          rw [if_neg (by omega), if_neg (by omega), if_pos (by omega)]
          simp
        rw [hl]
        simp only [List.nil_append]
        rw [utf8Step_more _ _ 0 rfl (by simp only; split <;> omega)
          (by simp only; split <;> omega)]
        simp only [List.nil_append]
        rw [utf8Step_last _ _ rfl (by simp only; omega) (by simp only; omega)]
        simp only [List.singleton_append, List.cons.injEq]
        exact ⟨by omega, rfl⟩
      · rw [if_neg h3]
        simp only [List.cons_append, List.nil_append, utf8Decode]
        rw [toNat_ofNat8 _ (by omega), toNat_ofNat8 _ (by omega), toNat_ofNat8 _ (by omega),
          toNat_ofNat8 _ (by omega), utf8Step_lead _ _ rfl]
        have hl : utf8Lead (0xF0 + cp / 0x40000) =
            ([], ⟨cp / 0x40000, 3, if 0xF0 + cp / 0x40000 = 0xF0 then 0x90 else 0x80,
              if 0xF0 + cp / 0x40000 = 0xF4 then 0x8F else 0xBF⟩) := by
          unfold utf8Lead
          rw [if_neg (by omega), if_neg (by omega), if_neg (by omega), if_pos (by omega)]
          simp
        rw [hl]
        simp only [List.nil_append]
        rw [utf8Step_more _ _ 1 rfl (by simp only; split <;> omega)
          (by simp only; split <;> omega)]
        simp only [List.nil_append]
        rw [utf8Step_more _ _ 0 rfl (by simp only; omega) (by simp only; omega)]
        simp only [List.nil_append]
        rw [utf8Step_last _ _ rfl (by simp only; omega) (by simp only; omega)]
        simp only [List.singleton_append, List.cons.injEq]
        exact ⟨by omega, rfl⟩

theorem utf8Decode_flatMap : ∀ (cps : List Nat), (∀ cp ∈ cps, isScalar cp) →
    utf8Decode utf8Init (cps.flatMap utf8Encode) = cps
  | [], _ => rfl
  | cp :: cps, h => by
    rw [List.flatMap_cons, utf8Decode_encode cp (h cp (List.mem_cons_self _ _)),
      utf8Decode_flatMap cps (fun c hc => h c (List.mem_cons_of_mem _ hc))]

theorem isScalar_unitOrReplacement (u : UInt16) : isScalar (unitOrReplacement u) := by
  have hu := UInt16.toNat_lt_size u
  simp only [UInt16.size] at hu
  unfold unitOrReplacement isScalar
  by_cases h : (isHigh u || isLow u) = true
  · rw [if_pos h]
    omega
  · rw [if_neg h]
    simp only [isHigh, isLow, Bool.or_eq_true, decide_eq_true_eq, not_or] at h
    omega

theorem isScalar_codePoints : ∀ (s : JsString), ∀ cp ∈ codePoints s, isScalar cp := by
  intro s
  induction s using codePoints.induct with
  | case1 => intro cp h; simp [codePoints] at h
  | case2 u =>
    intro cp h
    simp only [codePoints, List.mem_singleton] at h
    rw [h]
    exact isScalar_unitOrReplacement u
  | case3 u v rest hp ih =>
    intro cp h
    rw [codePoints, if_pos hp, List.mem_cons] at h
    rcases h with h | h
    · rw [h]
      simp only [isHigh, isLow, Bool.and_eq_true, decide_eq_true_eq] at hp
      unfold isScalar
      omega
    · exact ih cp h
  | case4 u v rest hp ih =>
    intro cp h
    rw [codePoints, if_neg hp, List.mem_cons] at h
    rcases h with h | h
    · rw [h]
      exact isScalar_unitOrReplacement u
    · exact ih cp h

/-- What comes back of a string after `Utf8Value` and `String::New`: the string with each
unpaired surrogate replaced by U+FFFD. -/
theorem stringNew_utf8Value (s : JsString) :
    StringNew (Utf8Value s) = (codePoints s).flatMap utf16Encode := by
  unfold StringNew Utf8Value
  rw [utf8Decode_flatMap _ (isScalar_codePoints s)]

theorem ofNat_toNat16 (u : UInt16) : UInt16.ofNat u.toNat = u :=
  UInt16.ext (Nat.mod_eq_of_lt (UInt16.toNat_lt_size u))

theorem utf16Encode_unit (u : UInt16) (h : (isHigh u || isLow u) = false) :
    utf16Encode (unitOrReplacement u) = [u] := by
  have hu := UInt16.toNat_lt_size u
  simp only [UInt16.size] at hu
  unfold unitOrReplacement
  rw [if_neg (by simp [h])]
  unfold utf16Encode
  rw [if_pos hu, ofNat_toNat16]

theorem utf16Encode_replacement (u : UInt16) (h : (isHigh u || isLow u) = true) :
    utf16Encode (unitOrReplacement u) = [0xFFFD] ∧ u ≠ 0xFFFD := by
  unfold unitOrReplacement
  rw [if_pos h]
  refine ⟨by decide, ?_⟩
  intro e
  rw [e] at h
  revert h
  decide

theorem utf16Encode_pair (u v : UInt16) (h : (isHigh u && isLow v) = true) :
    utf16Encode (0x10000 + (u.toNat - 0xD800) * 0x400 + (v.toNat - 0xDC00)) = [u, v] := by
  simp only [isHigh, isLow, Bool.and_eq_true, decide_eq_true_eq] at h
  unfold utf16Encode
  rw [if_neg (by omega)]
  have e1 : 0xD800 + (0x10000 + (u.toNat - 0xD800) * 0x400 + (v.toNat - 0xDC00) - 0x10000)
      / 0x400 = u.toNat := by omega
  have e2 : 0xDC00 + (0x10000 + (u.toNat - 0xD800) * 0x400 + (v.toNat - 0xDC00) - 0x10000)
      % 0x400 = v.toNat := by omega
  rw [e1, e2, ofNat_toNat16, ofNat_toNat16]

/-- A string survives `Utf8Value` followed by `String::New` exactly when it has no unpaired
surrogate. -/
theorem roundtrip_iff_wellFormed (s : JsString) :
    StringNew (Utf8Value s) = s ↔ wellFormed s = true := by
  rw [stringNew_utf8Value]
  induction s using codePoints.induct with
  | case1 => simp [codePoints, wellFormed]
  | case2 u =>
    simp only [codePoints, wellFormed, List.flatMap_cons, List.flatMap_nil, List.append_nil]
    by_cases h : (isHigh u || isLow u) = true
    · have := utf16Encode_replacement u h
      rw [this.1]
      simp only [h, Bool.not_true, Bool.false_eq_true, iff_false, List.cons.injEq, and_true]
      exact fun e => this.2 e.symm
    · simp only [Bool.not_eq_true] at h
      rw [utf16Encode_unit u h]
      simp [h]
  | case3 u v rest hp ih =>
    rw [codePoints, if_pos hp, wellFormed, if_pos hp, List.flatMap_cons,
      utf16Encode_pair u v hp]
    simp only [List.cons_append, List.nil_append, List.cons.injEq, true_and]
    exact ih
  | case4 u v rest hp ih =>
    rw [codePoints, if_neg hp, wellFormed, if_neg hp, List.flatMap_cons]
    by_cases h : (isHigh u || isLow u) = true
    · have := utf16Encode_replacement u h
      rw [this.1]
      simp only [h, Bool.not_true, Bool.false_and, Bool.false_eq_true, iff_false,
        List.singleton_append, List.cons.injEq, not_and]
      exact fun e => absurd e.symm this.2
    · simp only [Bool.not_eq_true] at h
      rw [utf16Encode_unit u h]
      simp only [h, Bool.not_false, Bool.true_and, List.singleton_append, List.cons.injEq,
        true_and]
      exact ih

theorem ofNat_toNat8 (x : UInt8) : UInt8.ofNat x.toNat = x :=
  UInt8.ext (Nat.mod_eq_of_lt (UInt8.toNat_lt_size x))

theorem utf8Decode_ascii : ∀ (b : Bytes), (∀ x ∈ b, x.toNat < 0x80) →
    utf8Decode utf8Init b = b.map (fun x => x.toNat)
  | [], _ => rfl
  | x :: b, h => by
    have hx := h x (List.mem_cons_self _ _)
    have ih := utf8Decode_ascii b (fun y hy => h y (List.mem_cons_of_mem _ hy))
    simp only [utf8Decode, List.map_cons]
    rw [utf8Step_lead _ _ rfl]
    unfold utf8Lead
    rw [if_pos hx]
    simp only [List.singleton_append, ih]

theorem codePoints_ascii (s : JsString) : (∀ u ∈ s, u.toNat < 0x80) →
    codePoints s = s.map (fun u => u.toNat) := by
  induction s using codePoints.induct with
  | case1 => intro _; rfl
  | case2 u =>
    intro h
    have hu := h u (List.mem_singleton_self u)
    simp only [codePoints, unitOrReplacement, isHigh, isLow, List.map_cons, List.map_nil]
    rw [if_neg (by simp only [Bool.or_eq_true, decide_eq_true_eq]; omega)]
  | case3 u v rest hp ih =>
    intro h
    have hu := h u (List.mem_cons_self _ _)
    simp only [isHigh, isLow, Bool.and_eq_true, decide_eq_true_eq] at hp
    omega
  | case4 u v rest hp ih =>
    intro h
    have hu := h u (List.mem_cons_self _ _)
    rw [codePoints, if_neg hp, ih (fun y hy => h y (List.mem_cons_of_mem _ hy))]
    simp only [unitOrReplacement, isHigh, isLow, List.map_cons]
    rw [if_neg (by simp only [Bool.or_eq_true, decide_eq_true_eq]; omega)]

/-- Bytes below `0x80` survive `Napi::String::New` followed by `Utf8Value()`. -/
theorem utf8Value_stringNew_ascii : ∀ (b : Bytes), (∀ x ∈ b, x.toNat < 0x80) →
    Utf8Value (StringNew b) = b := by
  intro b h
  have hs : StringNew b = b.map (fun x => UInt16.ofNat x.toNat) := by
    unfold StringNew
    rw [utf8Decode_ascii b h]
    clear h
    induction b with
    | nil => rfl
    | cons x b ih =>
      have hx := UInt8.toNat_lt_size x
      simp only [UInt8.size] at hx
      simp only [List.map_cons, List.flatMap_cons, ih, utf16Encode]
      rw [if_pos (by omega)]
      rfl
  have hu : ∀ x : UInt8, (UInt16.ofNat x.toNat).toNat = x.toNat := by
    intro x
    have hx := UInt8.toNat_lt_size x
    simp only [UInt8.size] at hx
    exact Nat.mod_eq_of_lt (by omega)
  unfold Utf8Value
  rw [hs, codePoints_ascii _ (by
    intro u hu2
    obtain ⟨x, hx, rfl⟩ := List.mem_map.mp hu2
    rw [hu x]
    exact h x hx)]
  clear hs
  induction b with
  | nil => rfl
  | cons x b ih =>
    have hx := h x (List.mem_cons_self _ _)
    simp only [List.map_cons, List.flatMap_cons]
    rw [ih (fun y hy => h y (List.mem_cons_of_mem _ hy)), hu x]
    unfold utf8Encode
    rw [if_pos hx, ofNat_toNat8]
    rfl

theorem digitChar_ascii (k : Nat) (hk : k < 10) :
    (UInt8.ofNat (Nat.digitChar k).toNat).toNat < 0x80 := by
  interval_cases k <;> decide

theorem toDigitsCore_ascii : ∀ (fuel n : Nat) (ds : List Char),
    (∀ c ∈ ds, (UInt8.ofNat c.toNat).toNat < 0x80) →
    ∀ c ∈ Nat.toDigitsCore 10 fuel n ds, (UInt8.ofNat c.toNat).toNat < 0x80
  | 0, _, ds, h => h
  | fuel + 1, n, ds, h => by
    have hd : ∀ c ∈ Nat.digitChar (n % 10) :: ds, (UInt8.ofNat c.toNat).toNat < 0x80 := by
      intro c hc
      rcases List.mem_cons.mp hc with rfl | hc
      · exact digitChar_ascii _ (Nat.mod_lt _ (by decide))
      · exact h c hc
    unfold Nat.toDigitsCore
    simp only
    split
    · exact hd
    · exact toDigitsCore_ascii fuel (n / 10) _ hd

theorem to_string_ascii (n : Nat) : ∀ x ∈ to_string n, x.toNat < 0x80 := by
  intro x hx
  obtain ⟨c, hc, rfl⟩ := List.mem_map.mp hx
  exact toDigitsCore_ascii (n + 1) n [] (fun _ h => absurd h (List.not_mem_nil _)) c hc

/-- The decimal identifier of a session reads back from the property
`__nativeSessionPtr` as it was written. -/
theorem utf8Value_stringNew_to_string (n : Nat) :
    Utf8Value (StringNew (to_string n)) = to_string n :=
  utf8Value_stringNew_ascii _ (to_string_ascii n)


/-! ## Facts about the registry and the call log -/

theorem log_call {σ : Type} (E : Engine σ) (w : World σ) (c : EngineCall) :
    (w.call E c).2.log = w.log ++ [c] := rfl

theorem closeSessions_log {σ : Type} (E : Engine σ) :
    ∀ (l : List (Bytes × Nat)) (w : World σ),
      (closeSessions E l w).log = w.log ++ (closedHandles l).map EngineCall.session_close
  | [], w => by simp [closeSessions, closedHandles]
  | (k, h) :: t, w => by
    by_cases hz : h = 0
    · simp [closeSessions, closedHandles, hz, closeSessions_log E t w]
    · simp [closeSessions, closedHandles, hz, closeSessions_log E t, log_call]

theorem mem_of_findEntry {k : Bytes} {h : Nat} :
    ∀ {l : List (Bytes × Nat)}, findEntry k l = some h → (k, h) ∈ l
  | [], hf => by simp [findEntry] at hf
  | (k1, v1) :: t, hf => by
    simp only [findEntry] at hf
    split at hf
    · rename_i hk
      simp only [Option.some.injEq] at hf
      simp [hk, hf]
    · exact List.mem_cons_of_mem _ (mem_of_findEntry hf)

theorem findEntry_insertEntry (k : Bytes) (v : Nat) (q : Bytes) :
    ∀ (l : List (Bytes × Nat)),
      findEntry q (insertEntry k v l) = if q = k then some v else findEntry q l
  | [] => by simp [insertEntry, findEntry]
  | (k1, v1) :: t => by
    simp only [insertEntry]
    split
    · simp [findEntry]
    · split
      · rename_i _ hk
        subst hk
        by_cases hq : q = k <;> simp [findEntry, hq]
      · rename_i _ hk
        simp only [findEntry, findEntry_insertEntry k v q t]
        by_cases hq : q = k
        · have : ¬ q = k1 := fun h => hk (hq ▸ h)
          simp [hq, this, hk]
        · simp [hq]

theorem findEntry_eq_none_of_lt {k : Bytes} :
    ∀ {l : List (Bytes × Nat)}, (∀ p ∈ l, lexLt k p.1 = true) → findEntry k l = none
  | [], _ => rfl
  | (k1, v1) :: t, h => by
    have h1 : lexLt k k1 = true := h (k1, v1) (List.mem_cons_self _ _)
    have hne : ¬ k = k1 := by
      intro e
      rw [e, lexLt_irrefl] at h1
      exact Bool.false_ne_true h1
    simp only [findEntry, hne, if_false]
    exact findEntry_eq_none_of_lt (fun p hp => h p (List.mem_cons_of_mem _ hp))

theorem findEntry_eraseEntry (k q : Bytes) :
    ∀ (l : List (Bytes × Nat)), KeySorted l →
      findEntry q (eraseEntry k l) = if q = k then none else findEntry q l
  | [], _ => by simp [eraseEntry, findEntry]
  | (k1, v1) :: t, hs => by
    unfold KeySorted at hs
    rw [List.pairwise_cons] at hs
    simp only [eraseEntry]
    split
    · rename_i hk
      subst hk
      by_cases hq : q = k
      · subst hq
        simp only [if_true]
        exact findEntry_eq_none_of_lt (fun p hp => hs.1 p hp)
      · simp [findEntry, hq]
    · rename_i hk
      simp only [findEntry, findEntry_eraseEntry k q t hs.2]
      by_cases hq : q = k
      · have : ¬ q = k1 := fun h => hk (hq ▸ h)
        simp [hq, this, hk]
      · simp [hq]

theorem eraseEntry_eq_filter (k : Bytes) :
    ∀ (l : List (Bytes × Nat)), KeySorted l →
      eraseEntry k l = l.filter (fun p => p.1 != k)
  | [], _ => rfl
  | (k1, v1) :: t, hs => by
    unfold KeySorted at hs
    rw [List.pairwise_cons] at hs
    simp only [eraseEntry]
    split
    · rename_i hk
      subst hk
      have hall : ∀ p ∈ t, (p.1 != k) = true := by
        intro p hp
        have h1 := hs.1 p hp
        simp only [bne_iff_ne, ne_eq]
        intro e
        rw [e, lexLt_irrefl] at h1
        exact Bool.false_ne_true h1
      rw [List.filter_cons]
      simp only [bne_self_eq_false, Bool.false_eq_true, if_false]
      exact (List.filter_eq_self.mpr hall).symm
    · rename_i hk
      have hne : (k1 != k) = true := by
        simp only [bne_iff_ne, ne_eq]
        exact fun h => hk h.symm
      rw [List.filter_cons]
      simp only [hne, if_true]
      rw [eraseEntry_eq_filter k t hs.2]

theorem eraseEntry_of_findEntry_none (k : Bytes) :
    ∀ (l : List (Bytes × Nat)), findEntry k l = none → eraseEntry k l = l
  | [], _ => rfl
  | (k1, v1) :: t, h => by
    simp only [findEntry] at h
    split at h
    · exact absurd h (by simp)
    · rename_i hk
      simp [eraseEntry, hk, eraseEntry_of_findEntry_none k t h]

/-! ## C1: Connection.close -/

/-- C1. For every connection state, every argument list and every engine (so for every
combination of statuses the engine returns), `Connection.close()` returns success, leaves
the handle null and the registry empty, and the native calls it adds to the log are: the
engine's session close on each non-null handle of the registry, in key order, followed
(when the connection handle was non-null) by the engine's connection close and nothing
else.  In particular every non-null handle found in the registry is closed, and before
the connection is. -/
theorem connection_close_closes_all {σ : Type} (E : Engine σ) (self : WiredTigerConnection)
    (info : List JsValue) (w : World σ) :
    (self.Close E info w).1 = .ok (.boolean true) ∧
    (self.Close E info w).2.1.conn_ = 0 ∧
    (self.Close E info w).2.1.sessions_ = SessionMap.empty ∧
    (self.Close E info w).2.2.log =
      w.log ++ (closedHandles self.sessions_.entries).map EngineCall.session_close
        ++ (if self.conn_ ≠ 0 then [EngineCall.conn_close self.conn_] else []) ∧
    (∀ (k : Bytes) (h : Nat), self.sessions_.find k = some h → h ≠ 0 →
      EngineCall.session_close h ∈
        (closedHandles self.sessions_.entries).map EngineCall.session_close) := by
  refine ⟨rfl, ?_, ?_, ?_, ?_⟩
  · by_cases hc : self.conn_ = 0 <;>
      simp [WiredTigerConnection.Close, WiredTigerConnection.CloseInternal, hc]
  · by_cases hc : self.conn_ = 0 <;>
      simp [WiredTigerConnection.Close, WiredTigerConnection.CloseInternal, hc]
  · by_cases hc : self.conn_ = 0
    · simp [WiredTigerConnection.Close, WiredTigerConnection.CloseInternal, hc,
        SessionMap.empty, closeSessions, closeSessions_log]
    · simp [WiredTigerConnection.Close, WiredTigerConnection.CloseInternal, hc,
        SessionMap.empty, closeSessions, closeSessions_log, log_call]
  · intro k h hf hz
    have hm : (k, h) ∈ self.sessions_.entries := mem_of_findEntry hf
    refine List.mem_map.mpr ⟨h, ?_, rfl⟩
    unfold closedHandles
    refine List.mem_filter.mpr ⟨List.mem_map.mpr ⟨(k, h), hm, rfl⟩, ?_⟩
    simpa using hz

/-- C1 at a concrete state: a registry holding handles 10 and 5 on connection 1, with an
engine that fails every close with status 22. -/
theorem connection_close_closes_all_example :
    WiredTigerConnection.Close (constEngine 22 0)
        ⟨1, (SessionMap.empty.insert (to_string 5) 5).insert (to_string 10) 10⟩ []
        ⟨(), []⟩ =
      (.ok (.boolean true), ⟨0, SessionMap.empty⟩,
        ⟨(), [.session_close 10, .session_close 5, .conn_close 1]⟩) := by
  decide

/-! ## C2: a second close -/

/-- C2. `close()` is idempotent on Cursor, Session and Connection.  After a first
`close()` that returned (for a Session: returned success, which is when its handle was
nulled), a second `close()` with any arguments returns success, leaves the wrapper as the
first close left it (handle null, registry empty) and leaves the engine state and the call
log untouched: it makes no native call. -/
theorem close_idempotent {σ : Type} (E : Engine σ) (c : WiredTigerCursor)
    (s : WiredTigerSession) (n : WiredTigerConnection) (info info2 : List JsValue)
    (w : World σ) (hs : (s.Close E info w).1 = .ok (.boolean true)) :
    (WiredTigerCursor.Close E (c.Close E info w).2.1 info2 (c.Close E info w).2.2 =
        (.ok (.boolean true), (c.Close E info w).2.1, (c.Close E info w).2.2) ∧
      (c.Close E info w).2.1.cursor_ = 0) ∧
    (WiredTigerSession.Close E (s.Close E info w).2.1 info2 (s.Close E info w).2.2 =
        (.ok (.boolean true), (s.Close E info w).2.1, (s.Close E info w).2.2) ∧
      (s.Close E info w).2.1.session_ = 0) ∧
    (WiredTigerConnection.Close E (n.Close E info w).2.1 info2 (n.Close E info w).2.2 =
        (.ok (.boolean true), (n.Close E info w).2.1, (n.Close E info w).2.2) ∧
      (n.Close E info w).2.1.conn_ = 0 ∧
      (n.Close E info w).2.1.sessions_ = SessionMap.empty) := by
  refine ⟨?_, ?_, ?_⟩
  · by_cases hc : c.cursor_ = 0 <;> simp [WiredTigerCursor.Close, hc]
  · by_cases hz : s.session_ = 0
    · simp [WiredTigerSession.Close, hz]
    · by_cases hr : (w.call E (.session_close s.session_)).1.ret = 0
      · simp [WiredTigerSession.Close, hz, hr]
      · simp [WiredTigerSession.Close, hz, hr] at hs
  · by_cases hc : n.conn_ = 0 <;>
      simp [WiredTigerConnection.Close, WiredTigerConnection.CloseInternal, hc,
        SessionMap.empty, closeSessions]

/-- C2 at a concrete input: cursor 7 of session 5, session 5, and connection 1 with
session 5 registered, each closed twice on an engine whose calls all return 0. -/
theorem close_idempotent_witness :
    (WiredTigerSession.Close (constEngine 0 0) ⟨5, some (js "5")⟩ [] ⟨(), []⟩).1 =
        .ok (.boolean true) ∧
    WiredTigerCursor.Close (constEngine 0 0) ⟨0, 5, [], []⟩ [] ⟨(), [.cursor_close 7]⟩ =
        (.ok (.boolean true), ⟨0, 5, [], []⟩, ⟨(), [.cursor_close 7]⟩) ∧
    WiredTigerSession.Close (constEngine 0 0) ⟨0, some (js "5")⟩ []
        ⟨(), [.session_close 5]⟩ =
        (.ok (.boolean true), ⟨0, some (js "5")⟩, ⟨(), [.session_close 5]⟩) ∧
    WiredTigerConnection.Close (constEngine 0 0) ⟨0, SessionMap.empty⟩ []
        ⟨(), [.session_close 5, .conn_close 1]⟩ =
        (.ok (.boolean true), ⟨0, SessionMap.empty⟩,
          ⟨(), [.session_close 5, .conn_close 1]⟩) :=
  have h := close_idempotent (constEngine 0 0) ⟨7, 5, [], []⟩ ⟨5, some (js "5")⟩
    ⟨1, SessionMap.empty.insert (to_string 5) 5⟩ [] [] ⟨(), []⟩ (by decide)
  ⟨by decide, h.1.1, h.2.1.1, h.2.2.1⟩

/-! ## C3: close and engine failures -/

/-- C3 fails for `Session.close()`: on session handle 5, when the engine's session close
returns status 1, `Session.close()` leaves an Error pending instead of returning success,
and keeps the handle. -/
theorem session_close_raises_on_engine_failure :
    WiredTigerSession.Close (constEngine 1 0) ⟨5, some (js "5")⟩ [] ⟨(), []⟩ =
      (.raise (.error "Failed to close session: 1"), ⟨5, some (js "5")⟩,
        ⟨(), [.session_close 5]⟩) := by
  decide

/-- C3 as amended. `Cursor.close()` and `Connection.close()` return success in every
state and for every engine.  `Session.close()` returns success when its handle is null
or the engine's session close returns 0; when the engine's session close returns a
non-zero status it raises the Error "Failed to close session: " followed by the engine's
message for that status, and keeps its handle. -/
theorem close_outcomes {σ : Type} (E : Engine σ) (c : WiredTigerCursor)
    (s : WiredTigerSession) (n : WiredTigerConnection) (info : List JsValue)
    (w : World σ) :
    (c.Close E info w).1 = .ok (.boolean true) ∧
    (n.Close E info w).1 = .ok (.boolean true) ∧
    (s.Close E info w).1 =
      (if s.session_ = 0 ∨ (E.respond w.eng (.session_close s.session_)).1.ret = 0 then
        .ok (.boolean true)
      else .raise (.error ("Failed to close session: " ++
        E.strerror (E.respond w.eng (.session_close s.session_)).1.ret))) ∧
    ((s.Close E info w).2.1.session_ =
      if (E.respond w.eng (.session_close s.session_)).1.ret = 0 then 0 else s.session_) := by
  refine ⟨?_, rfl, ?_, ?_⟩
  · by_cases hc : c.cursor_ = 0 <;> simp [WiredTigerCursor.Close, hc]
  · by_cases hz : s.session_ = 0
    · simp [WiredTigerSession.Close, hz]
    · by_cases hr : (E.respond w.eng (.session_close s.session_)).1.ret = 0 <;>
        simp [WiredTigerSession.Close, World.call, hz, hr]
  · by_cases hz : s.session_ = 0
    · simp [WiredTigerSession.Close, hz]
    · by_cases hr : (E.respond w.eng (.session_close s.session_)).1.ret = 0 <;>
        simp [WiredTigerSession.Close, World.call, hz, hr]

/-! ## C4: operations on a closed cursor -/

/-- C4 fails on the code. After `close()` the cursor's handle is null, and every cursor
operation whose arguments pass the argument check then calls through that null handle:
no operation tests the handle first. The engine state and the call log are as the close
left them. -/
theorem closed_cursor_ops_deref_null {σ : Type} (E : Engine σ) (c : WiredTigerCursor)
    (info rest : List JsValue) (k v : JsString) (b : Bytes) (w : World σ) :
    (c.Close E info w).2.1.cursor_ = 0 ∧
    (∀ op ∈ [
        WiredTigerCursor.Set E (c.Close E info w).2.1 (.string k :: .string v :: rest),
        WiredTigerCursor.Get E (c.Close E info w).2.1 rest,
        WiredTigerCursor.Search E (c.Close E info w).2.1 (.string k :: rest),
        WiredTigerCursor.SearchNear E (c.Close E info w).2.1 (.arrayBuffer b :: rest),
        WiredTigerCursor.Next E (c.Close E info w).2.1 rest,
        WiredTigerCursor.Prev E (c.Close E info w).2.1 rest,
        WiredTigerCursor.Reset E (c.Close E info w).2.1 rest,
        WiredTigerCursor.Insert E (c.Close E info w).2.1 rest,
        WiredTigerCursor.Update E (c.Close E info w).2.1 rest,
        WiredTigerCursor.Remove E (c.Close E info w).2.1 rest,
        WiredTigerCursor.GetRawKey E (c.Close E info w).2.1 rest,
        WiredTigerCursor.GetRawValue E (c.Close E info w).2.1 rest,
        WiredTigerCursor.SetRawKey E (c.Close E info w).2.1 (.arrayBuffer b :: rest),
        WiredTigerCursor.SetRawValue E (c.Close E info w).2.1 (.arrayBuffer b :: rest)],
      (op (c.Close E info w).2.2).1 = Outcome.nullDeref ∧
      (op (c.Close E info w).2.2).2.2 = (c.Close E info w).2.2) := by
  have hz : (c.Close E info w).2.1.cursor_ = 0 := by
    by_cases hc : c.cursor_ = 0 <;> simp [WiredTigerCursor.Close, hc]
  refine ⟨hz, ?_⟩
  intro op hop
  simp only [List.mem_cons, List.mem_singleton, List.not_mem_nil, or_false] at hop
  rcases hop with h | h | h | h | h | h | h | h | h | h | h | h | h | h <;> subst h <;>
    simp [WiredTigerCursor.Set, WiredTigerCursor.Get, WiredTigerCursor.Search,
      WiredTigerCursor.SearchNear, WiredTigerCursor.Next, WiredTigerCursor.Prev,
      WiredTigerCursor.Reset, WiredTigerCursor.Insert, WiredTigerCursor.Update,
      WiredTigerCursor.Remove, WiredTigerCursor.GetRawKey, WiredTigerCursor.GetRawValue,
      WiredTigerCursor.SetRawKey, WiredTigerCursor.SetRawValue, hz]

/-- C4 at a concrete input: cursor 7 is closed, then `next()` is called on it. -/
theorem closed_cursor_next_example :
    WiredTigerCursor.Next (constEngine 0 0)
        (WiredTigerCursor.Close (constEngine 0 0) ⟨7, 5, [], []⟩ [] ⟨(), []⟩).2.1 []
        ⟨(), [.cursor_close 7]⟩ =
      (.nullDeref, ⟨0, 5, [], []⟩, ⟨(), [.cursor_close 7]⟩) := by
  decide

/-! ## C5: how often a session handle is closed -/

theorem digitChar_value (k : Nat) (hk : k < 10) :
    (UInt8.ofNat (Nat.digitChar k).toNat).toNat - 48 = k := by
  interval_cases k <;> rfl

theorem digitsValue_toDigitsCore : ∀ (fuel n : Nat) (ds : List Char), n < fuel →
    digitsValue 0 ((Nat.toDigitsCore 10 fuel n ds).map (fun c => UInt8.ofNat c.toNat)) =
      digitsValue n (ds.map (fun c => UInt8.ofNat c.toNat))
  | 0, n, ds, h => absurd h (Nat.not_lt_zero n)
  | fuel + 1, n, ds, h => by
    unfold Nat.toDigitsCore
    simp only
    by_cases h0 : n / 10 = 0
    · rw [if_pos h0]
      simp only [List.map_cons, digitsValue, List.foldl_cons]
      rw [digitChar_value _ (Nat.mod_lt _ (by decide))]
      have : 0 * 10 + n % 10 = n := by omega
      rw [this]
    · rw [if_neg h0, digitsValue_toDigitsCore fuel (n / 10) _ (by omega)]
      simp only [List.map_cons, digitsValue, List.foldl_cons]
      rw [digitChar_value _ (Nat.mod_lt _ (by decide))]
      have : n / 10 * 10 + n % 10 = n := by omega
      rw [this]

theorem digitsValue_to_string (n : Nat) : digitsValue 0 (to_string n) = n := by
  unfold to_string Nat.toDigits
  rw [digitsValue_toDigitsCore (n + 1) n [] (Nat.lt_succ_self n)]
  rfl

theorem to_string_injective {a b : Nat} (h : to_string a = to_string b) : a = b := by
  have := congrArg (digitsValue 0) h
  rwa [digitsValue_to_string, digitsValue_to_string] at this

theorem to_string_ne_nil {h : Nat} (hnz : h ≠ 0) : to_string h ≠ [] := by
  intro e
  have := congrArg (digitsValue 0) e
  rw [digitsValue_to_string] at this
  exact hnz this

theorem idKeyed_empty : IdKeyed SessionMap.empty := by
  intro p hp
  simp [SessionMap.empty] at hp

theorem idKeyed_insert {m : SessionMap} (hm : IdKeyed m) (h : Nat) :
    IdKeyed (m.insert (to_string h) h) := by
  intro p hp hnz
  rcases mem_insertEntry hp with rfl | hp
  · rfl
  · exact hm p hp hnz

theorem idKeyed_insert_null {m : SessionMap} (hm : IdKeyed m) (k : Bytes) :
    IdKeyed (m.insert k 0) := by
  intro p hp hnz
  rcases mem_insertEntry hp with rfl | hp
  · exact absurd rfl hnz
  · exact hm p hp hnz

theorem idKeyed_erase {m : SessionMap} (hm : IdKeyed m) (k : Bytes) : IdKeyed (m.erase k) :=
  fun p hp => hm p ((eraseEntry_sublist k m.entries).subset hp)

theorem count_closedHandles (h : Nat) (hnz : h ≠ 0) :
    ∀ (l : List (Bytes × Nat)), KeySorted l → (∀ p ∈ l, p.2 ≠ 0 → p.1 = to_string p.2) →
      (closedHandles l).count h = if findEntry (to_string h) l = some h then 1 else 0
  | [], _, _ => by simp [closedHandles, findEntry]
  | (k1, v1) :: t, hs, hid => by
    have hs2 := hs
    unfold KeySorted at hs2
    rw [List.pairwise_cons] at hs2
    have hk1 : v1 ≠ 0 → k1 = to_string v1 := hid (k1, v1) (List.mem_cons_self _ _)
    have hidt : ∀ p ∈ t, p.2 ≠ 0 → p.1 = to_string p.2 :=
      fun p hp => hid p (List.mem_cons_of_mem _ hp)
    have ih := count_closedHandles h hnz t hs2.2 hidt
    have hcons : closedHandles ((k1, v1) :: t) =
        (if v1 ≠ 0 then [v1] else []) ++ closedHandles t := by
      by_cases hv : v1 = 0 <;> simp [closedHandles, hv]
    have htail : to_string h = k1 → findEntry (to_string h) t = none := by
      intro e
      exact findEntry_eq_none_of_lt (fun p hp => e ▸ hs2.1 p hp)
    have hfirst : (if v1 ≠ 0 then [v1] else []).count h = if v1 = h then 1 else 0 := by
      by_cases hv1 : v1 = 0
      · have hne : ¬ v1 = h := fun e => hnz (e.symm.trans hv1)
        rw [if_neg (not_not.mpr hv1), if_neg hne]
        rfl
      · rw [if_pos hv1]
        by_cases hv : v1 = h
        · rw [if_pos hv, hv]
          simp
        · rw [if_neg hv]
          exact List.count_eq_zero.mpr (by simpa using fun e => hv e.symm)
    have hfind : findEntry (to_string h) ((k1, v1) :: t) =
        if to_string h = k1 then some v1 else findEntry (to_string h) t := rfl
    rw [hcons, List.count_append, ih, hfirst, hfind]
    by_cases hv : v1 = h
    · have e : to_string h = k1 := by rw [hk1 (hv ▸ hnz), hv]
      rw [if_pos hv, if_pos e, htail e, hv]
      simp
    · by_cases e : to_string h = k1
      · rw [if_neg hv, if_pos e, htail e]
        have : ¬ some v1 = some h := fun x => hv (Option.some.inj x)
        simp [this]
      · rw [if_neg hv, if_neg e]
        simp

theorem sessionCloses_append (a b : List EngineCall) (h : Nat) :
    sessionCloses (a ++ b) h = sessionCloses a h + sessionCloses b h := by
  simp [sessionCloses, List.count_append]

theorem sessionCloses_map (l : List Nat) (h : Nat) :
    sessionCloses (l.map EngineCall.session_close) h = l.count h := by
  unfold sessionCloses
  exact List.count_map_of_injective l EngineCall.session_close
    (fun a b hab => by injection hab) h

theorem sessionCloses_closeSessions {σ : Type} (E : Engine σ) (m : SessionMap)
    (hm : IdKeyed m) (h : Nat) (hnz : h ≠ 0) (w : World σ) :
    sessionCloses (closeSessions E m.entries w).log h =
      sessionCloses w.log h + (if m.find (to_string h) = some h then 1 else 0) := by
  rw [closeSessions_log, sessionCloses_append, sessionCloses_map,
    count_closedHandles h hnz m.entries m.sorted hm]
  rfl

theorem close_log {σ : Type} (E : Engine σ) (n : WiredTigerConnection)
    (info : List JsValue) (w : World σ) :
    (n.Close E info w).2.2.log =
      w.log ++ (closedHandles n.sessions_.entries).map EngineCall.session_close
        ++ (if n.conn_ ≠ 0 then [EngineCall.conn_close n.conn_] else []) := by
  by_cases hc : n.conn_ = 0
  · simp [WiredTigerConnection.Close, WiredTigerConnection.CloseInternal, hc,
      SessionMap.empty, closeSessions, closeSessions_log]
  · simp [WiredTigerConnection.Close, WiredTigerConnection.CloseInternal, hc,
      SessionMap.empty, closeSessions, closeSessions_log, log_call]

theorem closeInternal_log {σ : Type} (E : Engine σ) (n : WiredTigerConnection)
    (w : World σ) :
    (n.CloseInternal E w).2.log =
      w.log ++ (closedHandles n.sessions_.entries).map EngineCall.session_close
        ++ (if n.conn_ ≠ 0 then [EngineCall.conn_close n.conn_] else []) := by
  by_cases hc : n.conn_ = 0
  · simp [WiredTigerConnection.CloseInternal, hc, closeSessions_log]
  · simp [WiredTigerConnection.CloseInternal, hc, closeSessions_log, log_call]

theorem sessionCloses_connTail (c h : Nat) :
    sessionCloses (if c ≠ 0 then [EngineCall.conn_close c] else []) h = 0 := by
  by_cases hc : c = 0 <;> simp [sessionCloses, hc]

theorem sessionCloses_close {σ : Type} (E : Engine σ) (n : WiredTigerConnection)
    (hn : IdKeyed n.sessions_) (info : List JsValue) (w : World σ) (h : Nat) (hnz : h ≠ 0) :
    sessionCloses (n.Close E info w).2.2.log h =
      sessionCloses w.log h + (if n.sessions_.find (to_string h) = some h then 1 else 0) := by
  rw [close_log, sessionCloses_append, sessionCloses_append, sessionCloses_map,
    count_closedHandles h hnz n.sessions_.entries n.sessions_.sorted hn,
    sessionCloses_connTail]
  rfl

theorem sessionCloses_closeInternal {σ : Type} (E : Engine σ) (n : WiredTigerConnection)
    (hn : IdKeyed n.sessions_) (w : World σ) (h : Nat) (hnz : h ≠ 0) :
    sessionCloses (n.CloseInternal E w).2.log h =
      sessionCloses w.log h + (if n.sessions_.find (to_string h) = some h then 1 else 0) := by
  rw [closeInternal_log, sessionCloses_append, sessionCloses_append, sessionCloses_map,
    count_closedHandles h hnz n.sessions_.entries n.sessions_.sorted hn,
    sessionCloses_connTail]
  rfl

theorem step_sessionClose_effect {σ : Type} (E : Engine σ) (s : System σ) (i : Nat)
    (obj : WiredTigerSession) (hslot : slot s.sessions i = some obj)
    (hnz : obj.session_ ≠ 0) :
    (s.step E (.sessionClose i)).world.log = s.world.log ++ [.session_close obj.session_] ∧
    (s.step E (.sessionClose i)).conn = s.conn ∧
    (s.step E (.sessionClose i)).cursors = s.cursors := by
  by_cases hr : (s.world.call E (.session_close obj.session_)).1.ret = 0 <;>
    simp [System.step, hslot, WiredTigerSession.Close, hnz, hr, log_call]

theorem idKeyed_close {σ : Type} (E : Engine σ) (n : WiredTigerConnection)
    (info : List JsValue) (w : World σ) : IdKeyed (n.Close E info w).2.1.sessions_ := by
  by_cases hc : n.conn_ = 0 <;>
    simp [WiredTigerConnection.Close, WiredTigerConnection.CloseInternal, hc, idKeyed_empty]

theorem idKeyed_closeInternal {σ : Type} (E : Engine σ) (n : WiredTigerConnection)
    (w : World σ) : IdKeyed (n.CloseInternal E w).1.sessions_ := by
  by_cases hc : n.conn_ = 0 <;>
    simp [WiredTigerConnection.CloseInternal, hc, idKeyed_empty]

theorem idKeyed_openSession {σ : Type} (E : Engine σ)
    (n : WiredTigerConnection) (hn : IdKeyed n.sessions_) (info : List JsValue)
    (w : World σ) : IdKeyed (n.OpenSession E info w).2.1.sessions_ := by
  by_cases hc : n.conn_ = 0
  · simpa [WiredTigerConnection.OpenSession, hc] using hn
  · by_cases hr : (E.respond w.eng (.conn_open_session n.conn_)).1.ret = 0
    · by_cases hnz : (E.respond w.eng (.conn_open_session n.conn_)).1.handle = 0
      · simpa [WiredTigerConnection.OpenSession, WiredTigerSession.NewInstance, World.call,
          hc, hr, hnz] using idKeyed_insert_null hn []
      · simpa [WiredTigerConnection.OpenSession, WiredTigerSession.NewInstance, World.call,
          hc, hr, hnz, utf8Value_stringNew_to_string] using idKeyed_insert hn _
    · simpa [WiredTigerConnection.OpenSession, World.call, hc, hr] using hn

theorem conn_checkpoint {σ : Type} (E : Engine σ) (n : WiredTigerConnection)
    (info : List JsValue) (w : World σ) : (n.Checkpoint E info w).2.1 = n := by
  unfold WiredTigerConnection.Checkpoint
  by_cases hc : n.conn_ = 0
  · simp [hc]
  · simp only [hc, if_false]
    split
    · rfl
    · split
      · rfl
      · split <;> rfl

theorem step_openSession_parts {σ : Type} (E : Engine σ) (s : System σ) :
    (s.step E .openSession).world = (s.conn.OpenSession E [] s.world).2.2 ∧
    (s.step E .openSession).conn = (s.conn.OpenSession E [] s.world).2.1 := by
  simp only [System.step]
  split <;> exact ⟨rfl, rfl⟩

/-- The registry of every system reached from one whose registry is keyed by the
identifiers of its handles is keyed so too. -/
theorem idKeyed_step {σ : Type} (E : Engine σ) (s : System σ)
    (hs : IdKeyed s.conn.sessions_) (op : Op) :
    IdKeyed (s.step E op).conn.sessions_ := by
  cases op with
  | openSession =>
    rw [(step_openSession_parts E s).2]
    exact idKeyed_openSession E s.conn hs [] s.world
  | sessionClose i =>
    simp only [System.step]
    split <;> exact hs
  | releaseSession info =>
    simp only [System.step, WiredTigerConnection.ReleaseSession]
    split
    · exact idKeyed_erase hs _
    · exact hs
  | connectionClose => exact idKeyed_close E s.conn [] s.world
  | checkpoint =>
    simp only [System.step]
    rw [conn_checkpoint]
    exact hs
  | openCursor i info =>
    simp only [System.step]
    split
    · split <;> exact hs
    · exact hs
  | openCursorWithConfig i info =>
    simp only [System.step]
    split
    · split <;> exact hs
    · exact hs
  | cursorClose j =>
    simp only [System.step]
    split <;> exact hs
  | finalizeCursor j =>
    simp only [System.step]
    split <;> exact hs
  | finalizeSession i =>
    simp only [System.step]
    split <;> exact hs
  | finalizeConnection => exact idKeyed_closeInternal E s.conn s.world

theorem idKeyed_run {σ : Type} (E : Engine σ) :
    ∀ (ops : List Op) (s : System σ), IdKeyed s.conn.sessions_ →
      IdKeyed (s.run E ops).conn.sessions_
  | [], _, hs => hs
  | op :: ops, s, hs => idKeyed_run E ops (s.step E op) (idKeyed_step E s hs op)

theorem find_insert_self (m : SessionMap) (k : Bytes) (v : Nat) :
    (m.insert k v).find k = some v := by
  simp [SessionMap.find, SessionMap.insert, findEntry_insertEntry]

theorem find_erase_self (m : SessionMap) (k : Bytes) : (m.erase k).find k = none := by
  simp [SessionMap.find, SessionMap.erase, findEntry_eraseEntry k k m.entries m.sorted]

theorem sessionCloses_call {σ : Type} (E : Engine σ) (w : World σ) (c : EngineCall)
    (h : Nat) :
    sessionCloses (w.call E c).2.log h =
      sessionCloses w.log h + (if c = .session_close h then 1 else 0) := by
  rw [log_call, sessionCloses_append]
  by_cases hc : c = .session_close h
  · simp [sessionCloses, hc]
  · have : sessionCloses [c] h = 0 :=
      List.count_eq_zero.mpr (by simpa using fun e => hc e.symm)
    simp [this, hc]

theorem owed_insert (c c2 : Nat) (m : SessionMap) (g h : Nat) :
    owed ⟨c, m.insert (to_string g) g⟩ h = if g = h then 1 else owed ⟨c2, m⟩ h := by
  unfold owed
  simp only [SessionMap.find, SessionMap.insert, findEntry_insertEntry]
  by_cases e : g = h
  · simp [e]
  · have hne : ¬ to_string h = to_string g := fun x => e (to_string_injective x).symm
    rw [if_neg hne, if_neg e]

theorem owed_insert_null (c c2 : Nat) (m : SessionMap) (h : Nat) (hnz : h ≠ 0) :
    owed ⟨c, m.insert [] 0⟩ h = owed ⟨c2, m⟩ h := by
  unfold owed
  simp only [SessionMap.find, SessionMap.insert, findEntry_insertEntry]
  rw [if_neg (to_string_ne_nil hnz)]

theorem owed_erase (c c2 : Nat) (m : SessionMap) (k : Bytes) (h : Nat) :
    owed ⟨c, m.erase k⟩ h = if to_string h = k then 0 else owed ⟨c2, m⟩ h := by
  unfold owed
  simp only [SessionMap.find, SessionMap.erase,
    findEntry_eraseEntry k (to_string h) m.entries m.sorted]
  by_cases e : to_string h = k <;> simp [e]

theorem owed_empty (c h : Nat) : owed ⟨c, SessionMap.empty⟩ h = 0 := by
  simp [owed, SessionMap.find, SessionMap.empty, findEntry]

theorem openSession_account {σ : Type} (E : Engine σ) (n : WiredTigerConnection)
    (info : List JsValue) (w : World σ) (h : Nat) (hnz : h ≠ 0) :
    sessionCloses (n.OpenSession E info w).2.2.log h + owed (n.OpenSession E info w).2.1 h =
      sessionCloses w.log h + owed n h +
        (if n.conn_ ≠ 0 ∧ (E.respond w.eng (.conn_open_session n.conn_)).1.ret = 0 ∧
            (E.respond w.eng (.conn_open_session n.conn_)).1.handle = h ∧
            n.sessions_.find (to_string h) ≠ some h then 1 else 0) := by
  by_cases hc : n.conn_ = 0
  · simp [WiredTigerConnection.OpenSession, hc]
  · by_cases hr : (E.respond w.eng (.conn_open_session n.conn_)).1.ret = 0
    · have hlog : sessionCloses (w.call E (.conn_open_session n.conn_)).2.log h =
          sessionCloses w.log h := by
        rw [sessionCloses_call]
        simp
      by_cases hg : (E.respond w.eng (.conn_open_session n.conn_)).1.handle = 0
      · have hres : n.OpenSession E info w =
            (.raise (.typeError "A string was expected"),
              ⟨n.conn_, n.sessions_.insert [] 0⟩,
              (w.call E (.conn_open_session n.conn_)).2) := by
          simp [WiredTigerConnection.OpenSession, WiredTigerSession.NewInstance,
            World.call, hc, hr, hg]
        have hne : ¬ (E.respond w.eng (.conn_open_session n.conn_)).1.handle = h :=
          fun e => hnz (e.symm.trans hg)
        rw [hres]
        simp only
        rw [hlog, owed_insert_null n.conn_ n.conn_ n.sessions_ h hnz]
        simp [hne]
      · have hres : n.OpenSession E info w =
            (.ok ⟨(E.respond w.eng (.conn_open_session n.conn_)).1.handle,
                some (StringNew
                  (to_string (E.respond w.eng (.conn_open_session n.conn_)).1.handle))⟩,
              ⟨n.conn_, n.sessions_.insert
                (to_string (E.respond w.eng (.conn_open_session n.conn_)).1.handle)
                (E.respond w.eng (.conn_open_session n.conn_)).1.handle⟩,
              (w.call E (.conn_open_session n.conn_)).2) := by
          simp [WiredTigerConnection.OpenSession, WiredTigerSession.NewInstance,
            World.call, hc, hr, hg, utf8Value_stringNew_to_string]
        rw [hres]
        simp only
        rw [hlog, owed_insert n.conn_ n.conn_ n.sessions_ _ h]
        by_cases e : (E.respond w.eng (.conn_open_session n.conn_)).1.handle = h
        · by_cases hf : n.sessions_.find (to_string h) = some h <;>
            simp [owed, hc, hr, e, hf]
        · simp [e]
    · have hlog : sessionCloses (w.call E (.conn_open_session n.conn_)).2.log h =
          sessionCloses w.log h := by
        rw [sessionCloses_call]
        simp
      have hres : n.OpenSession E info w =
          (.raise (.error ("Failed to open session: " ++
              E.strerror (E.respond w.eng (.conn_open_session n.conn_)).1.ret)), n,
            (w.call E (.conn_open_session n.conn_)).2) := by
        simp [WiredTigerConnection.OpenSession, World.call, hc, hr]
      rw [hres]
      simp only
      rw [hlog]
      simp [hr]

theorem checkpoint_account {σ : Type} (E : Engine σ) (n : WiredTigerConnection)
    (info : List JsValue) (w : World σ) (h : Nat) (hnz : h ≠ 0) :
    sessionCloses (n.Checkpoint E info w).2.2.log h =
      sessionCloses w.log h +
        (if n.conn_ ≠ 0 ∧ (E.respond w.eng (.conn_open_session n.conn_)).1.ret = 0 ∧
            (E.respond w.eng (.conn_open_session n.conn_)).1.handle = h then 1 else 0) := by
  by_cases hc : n.conn_ = 0
  · simp [WiredTigerConnection.Checkpoint, hc]
  · have hlog : sessionCloses (w.call E (.conn_open_session n.conn_)).2.log h =
        sessionCloses w.log h := by
      rw [sessionCloses_call]
      simp
    by_cases hr : (E.respond w.eng (.conn_open_session n.conn_)).1.ret = 0
    · by_cases hg : (E.respond w.eng (.conn_open_session n.conn_)).1.handle = 0
      · have hne : ¬ (E.respond w.eng (.conn_open_session n.conn_)).1.handle = h :=
          fun e => hnz (e.symm.trans hg)
        have hres : (n.Checkpoint E info w).2.2 =
            (w.call E (.conn_open_session n.conn_)).2 := by
          simp [WiredTigerConnection.Checkpoint, World.call, hc, hr, hg]
        rw [hres, hlog]
        simp [hne]
      · have hres : (n.Checkpoint E info w).2.2 =
            (((w.call E (.conn_open_session n.conn_)).2.call E
              (.session_checkpoint (E.respond w.eng (.conn_open_session n.conn_)).1.handle)
              ).2.call E
              (.session_close (E.respond w.eng (.conn_open_session n.conn_)).1.handle)).2
            := by
          by_cases hck : (E.respond (E.respond w.eng (.conn_open_session n.conn_)).2
              (.session_checkpoint
                (E.respond w.eng (.conn_open_session n.conn_)).1.handle)).1.ret = 0 <;>
            simp [WiredTigerConnection.Checkpoint, World.call, hc, hr, hg, hck]
        rw [hres, sessionCloses_call, sessionCloses_call, hlog]
        by_cases e : (E.respond w.eng (.conn_open_session n.conn_)).1.handle = h <;>
          simp [hc, hr, e]
    · have hres : (n.Checkpoint E info w).2.2 =
          (w.call E (.conn_open_session n.conn_)).2 := by
        simp [WiredTigerConnection.Checkpoint, World.call, hc, hr]
      rw [hres, hlog]
      simp [hr]

theorem sessionClose_account {σ : Type} (E : Engine σ) (obj : WiredTigerSession)
    (info : List JsValue) (w : World σ) (h : Nat) (hnz : h ≠ 0) :
    sessionCloses (obj.Close E info w).2.2.log h =
      sessionCloses w.log h + (if obj.session_ = h then 1 else 0) := by
  by_cases hz : obj.session_ = 0
  · have hne : ¬ obj.session_ = h := fun e => hnz (e.symm.trans hz)
    simp [WiredTigerSession.Close, hz, hne]
    exact fun e => absurd e.symm hnz
  · have hres : (obj.Close E info w).2.2 = (w.call E (.session_close obj.session_)).2 := by
      by_cases hr : (w.call E (.session_close obj.session_)).1.ret = 0 <;>
        simp [WiredTigerSession.Close, hz, hr]
    rw [hres, sessionCloses_call]
    by_cases e : obj.session_ = h <;> simp [e]

theorem sessionCloses_openCursor {σ : Type} (E : Engine σ) (obj : WiredTigerSession)
    (info : List JsValue) (w : World σ) (h : Nat) :
    sessionCloses (obj.OpenCursor E info w).2.2.log h = sessionCloses w.log h ∧
    sessionCloses (obj.OpenCursorWithConfig E info w).2.2.log h = sessionCloses w.log h := by
  constructor
  · simp only [WiredTigerSession.OpenCursor]
    repeat' split
    all_goals first | rfl | (rw [sessionCloses_call]; simp)
  · simp only [WiredTigerSession.OpenCursorWithConfig]
    repeat' split
    all_goals first | rfl | (rw [sessionCloses_call]; simp)

theorem sessionCloses_cursorClose {σ : Type} (E : Engine σ) (c : WiredTigerCursor)
    (info : List JsValue) (w : World σ) (h : Nat) :
    sessionCloses (c.Close E info w).2.2.log h = sessionCloses w.log h ∧
    sessionCloses (c.finalize E w).log h = sessionCloses w.log h := by
  constructor
  · simp only [WiredTigerCursor.Close]
    split
    · rw [sessionCloses_call]
      simp
    · rfl
  · simp only [WiredTigerCursor.finalize]
    split
    · rw [sessionCloses_call]
      simp
    · rfl

/-- One operation: the closes made on `h` so far plus the close the registry still owes
`h` change by the registration and the direct closes on `h`, less the release of `h`. -/
theorem accounting_step {σ : Type} (E : Engine σ) (s : System σ) (h : Nat)
    (hreg : IdKeyed s.conn.sessions_) (hnz : h ≠ 0) (op : Op) :
    sessionCloses (s.step E op).world.log h + owed (s.step E op).conn h + releases h s op =
      sessionCloses s.world.log h + owed s.conn h + registrations E h s op +
        directCloses E h s op := by
  cases op with
  | openSession =>
    rw [(step_openSession_parts E s).1, (step_openSession_parts E s).2,
      openSession_account E s.conn [] s.world h hnz]
    simp [releases, registrations, directCloses]
  | sessionClose i =>
    cases hslot : slot s.sessions i with
    | none => simp [System.step, hslot, releases, registrations, directCloses]
    | some obj =>
      have hacc := sessionClose_account E obj [] s.world h hnz
      simp only [System.step, hslot, releases, registrations, directCloses]
      rw [hacc]
      omega
  | releaseSession info =>
    match info with
    | [] => simp [System.step, WiredTigerConnection.ReleaseSession, releases,
        registrations, directCloses]
    | .string sessionId :: rest =>
      simp only [System.step, WiredTigerConnection.ReleaseSession, releases, registrations,
        directCloses]
      rw [owed_erase s.conn.conn_ s.conn.conn_ s.conn.sessions_ (Utf8Value sessionId) h]
      have howed : owed ⟨s.conn.conn_, s.conn.sessions_⟩ h = owed s.conn h := rfl
      rw [howed]
      by_cases e : Utf8Value sessionId = to_string h
      · by_cases hf : s.conn.sessions_.find (to_string h) = some h <;>
          simp [owed, e, hf]
      · have e2 : ¬ to_string h = Utf8Value sessionId := fun x => e x.symm
        simp [e, e2]
    | .undefined :: rest => simp [System.step, WiredTigerConnection.ReleaseSession,
        releases, registrations, directCloses]
    | .null :: rest => simp [System.step, WiredTigerConnection.ReleaseSession,
        releases, registrations, directCloses]
    | .boolean _ :: rest => simp [System.step, WiredTigerConnection.ReleaseSession,
        releases, registrations, directCloses]
    | .number _ :: rest => simp [System.step, WiredTigerConnection.ReleaseSession,
        releases, registrations, directCloses]
    | .arrayBuffer _ :: rest => simp [System.step, WiredTigerConnection.ReleaseSession,
        releases, registrations, directCloses]
    | .keyValue _ _ :: rest => simp [System.step, WiredTigerConnection.ReleaseSession,
        releases, registrations, directCloses]
    | .exactObj _ :: rest => simp [System.step, WiredTigerConnection.ReleaseSession,
        releases, registrations, directCloses]
  | connectionClose =>
    have hc := sessionCloses_close E s.conn hreg [] s.world h hnz
    have hempty : (s.conn.Close E [] s.world).2.1.sessions_ = SessionMap.empty := by
      by_cases hz : s.conn.conn_ = 0 <;>
        simp [WiredTigerConnection.Close, WiredTigerConnection.CloseInternal, hz]
    have howed : owed (s.conn.Close E [] s.world).2.1 h = 0 := by
      unfold owed
      rw [hempty]
      simp [SessionMap.find, SessionMap.empty, findEntry]
    simp only [System.step, releases, registrations, directCloses]
    rw [hc, howed]
    rfl
  | checkpoint =>
    have hacc := checkpoint_account E s.conn [] s.world h hnz
    simp only [System.step, releases, registrations, directCloses]
    rw [hacc, conn_checkpoint]
    omega
  | openCursor i info =>
    cases hslot : slot s.sessions i with
    | none => simp [System.step, hslot, releases, registrations, directCloses]
    | some obj =>
      have hacc := (sessionCloses_openCursor E obj info s.world h).1
      simp only [System.step, hslot, releases, registrations, directCloses]
      split <;> simp only [hacc]
  | openCursorWithConfig i info =>
    cases hslot : slot s.sessions i with
    | none => simp [System.step, hslot, releases, registrations, directCloses]
    | some obj =>
      have hacc := (sessionCloses_openCursor E obj info s.world h).2
      simp only [System.step, hslot, releases, registrations, directCloses]
      split <;> simp only [hacc]
  | cursorClose j =>
    cases hslot : slot s.cursors j with
    | none => simp [System.step, hslot, releases, registrations, directCloses]
    | some c =>
      have hacc := (sessionCloses_cursorClose E c [] s.world h).1
      simp only [System.step, hslot, releases, registrations, directCloses]
      rw [hacc]
  | finalizeCursor j =>
    cases hslot : slot s.cursors j with
    | none => simp [System.step, hslot, releases, registrations, directCloses]
    | some c =>
      have hacc := (sessionCloses_cursorClose E c [] s.world h).2
      simp only [System.step, hslot, releases, registrations, directCloses]
      rw [hacc]
  | finalizeSession i =>
    cases hslot : slot s.sessions i with
    | none => simp [System.step, hslot, releases, registrations, directCloses]
    | some obj =>
      simp [System.step, hslot, releases, registrations, directCloses,
        WiredTigerSession.finalize]
  | finalizeConnection =>
    have hc := sessionCloses_closeInternal E s.conn hreg s.world h hnz
    have hempty : (s.conn.CloseInternal E s.world).1.sessions_ = SessionMap.empty := by
      by_cases hz : s.conn.conn_ = 0 <;> simp [WiredTigerConnection.CloseInternal, hz]
    have howed : owed (s.conn.CloseInternal E s.world).1 h = 0 := by
      unfold owed
      rw [hempty]
      simp [SessionMap.find, SessionMap.empty, findEntry]
    simp only [System.step, releases, registrations, directCloses]
    rw [hc, howed]
    rfl

/-- The accounting of `accounting_step`, summed over a sequence of operations. -/
theorem accounting_run {σ : Type} (E : Engine σ) (h : Nat) (hnz : h ≠ 0) :
    ∀ (ops : List Op) (s : System σ), IdKeyed s.conn.sessions_ →
      sessionCloses (s.run E ops).world.log h + owed (s.run E ops).conn h +
          countAlong (releases h) E s ops =
        sessionCloses s.world.log h + owed s.conn h +
          countAlong (registrations E h) E s ops + countAlong (directCloses E h) E s ops
  | [], s, _ => by simp [System.run, countAlong]
  | op :: ops, s, hreg => by
    have h1 := accounting_step E s h hreg hnz op
    have h2 := accounting_run E h hnz ops (s.step E op) (idKeyed_step E s hreg op)
    have hrun : s.run E (op :: ops) = (s.step E op).run E ops := rfl
    rw [hrun]
    simp only [countAlong]
    omega

theorem run_append_one {σ : Type} (E : Engine σ) (s : System σ) (ops : List Op) (op : Op) :
    s.run E (ops ++ [op]) = (s.run E ops).step E op := by
  simp [System.run, List.foldl_append]

/-- C5 fails on the code. On an open connection, `openSession()` (the engine hands back
session handle 5), then `Session.close()` on the new wrapper, then `Connection.close()`
calls the engine's session close on handle 5 twice; and `openSession()`,
`releaseSession` of that session, then `Connection.close()` never calls it. -/
theorem session_close_then_connection_close_closes_twice :
    (System.run (constEngine 0 5) ⟨⟨(), []⟩, ⟨1, SessionMap.empty⟩, [], []⟩
        [.openSession, .sessionClose 0, .connectionClose]).world.log =
      [.conn_open_session 1, .session_close 5, .session_close 5, .conn_close 1] ∧
    sessionCloses (System.run (constEngine 0 5) ⟨⟨(), []⟩, ⟨1, SessionMap.empty⟩, [], []⟩
        [.openSession, .sessionClose 0, .connectionClose]).world.log 5 = 2 ∧
    (System.run (constEngine 0 5) ⟨⟨(), []⟩, ⟨1, SessionMap.empty⟩, [], []⟩
        [.openSession, .releaseSession [.string (js "5")],
          .connectionClose]).world.log =
      [.conn_open_session 1, .conn_close 1] := by
  decide

/-- C5 as amended. Take any system whose registry stores each non-null handle under its
identifier (a fresh connection is one, and every operation keeps it so), any sequence
`ops` of wrapper operations, and any non-null session handle `h`. When `ops` is followed
by `Connection.close()`, or by finalization of the connection, the number of calls of the
engine's session close on `h` is: the calls made before, plus 1 if `h` was registered at
the start, plus the number of `openSession()` calls that registered `h` anew, plus the
number of `Session.close()` calls made on a wrapper holding `h` and of `checkpoint()`
calls whose internal session was `h`, minus the number of `releaseSession` calls that
removed the entry of `h`. No other operation adds to or takes from that number. So,
starting where `h` is neither closed nor registered, `h` is closed exactly once if and
only if its registrations and direct closes are one more than its releases. -/
theorem session_close_accounting {σ : Type} (E : Engine σ) (s : System σ) (ops : List Op)
    (h : Nat) (hreg : IdKeyed s.conn.sessions_) (hnz : h ≠ 0) :
    (sessionCloses (s.run E (ops ++ [.connectionClose])).world.log h +
        countAlong (releases h) E s ops =
      sessionCloses s.world.log h + owed s.conn h +
        countAlong (registrations E h) E s ops + countAlong (directCloses E h) E s ops) ∧
    (sessionCloses (s.run E (ops ++ [.finalizeConnection])).world.log h +
        countAlong (releases h) E s ops =
      sessionCloses s.world.log h + owed s.conn h +
        countAlong (registrations E h) E s ops + countAlong (directCloses E h) E s ops) ∧
    (sessionCloses s.world.log h = 0 → owed s.conn h = 0 →
      (sessionCloses (s.run E (ops ++ [.connectionClose])).world.log h = 1 ↔
        countAlong (registrations E h) E s ops + countAlong (directCloses E h) E s ops =
          countAlong (releases h) E s ops + 1)) := by
  have hrun := accounting_run E h hnz ops s hreg
  have hlast := idKeyed_run E ops s hreg
  have hclose : sessionCloses (s.run E (ops ++ [.connectionClose])).world.log h =
      sessionCloses (s.run E ops).world.log h + owed (s.run E ops).conn h := by
    rw [run_append_one]
    exact sessionCloses_close E (s.run E ops).conn hlast [] (s.run E ops).world h hnz
  have hfin : sessionCloses (s.run E (ops ++ [.finalizeConnection])).world.log h =
      sessionCloses (s.run E ops).world.log h + owed (s.run E ops).conn h := by
    rw [run_append_one]
    exact sessionCloses_closeInternal E (s.run E ops).conn hlast (s.run E ops).world h hnz
  refine ⟨by omega, by omega, ?_⟩
  intro h0 h1
  omega

/-- C5 amended, at concrete inputs, on a fresh connection and an engine handing out the
handles 10, 11, 12, ... in turn. Two sessions, a cursor opened and closed, a checkpoint
and a finalized session wrapper, then `Connection.close()`: sessions 10 and 11 are each
closed once. One session closed through `Session.close()` and released, then
`Connection.close()`: session 10 is closed once. -/
theorem session_close_accounting_witness :
    sessionCloses (System.run freshEngine ⟨⟨0, []⟩, ⟨1, SessionMap.empty⟩, [], []⟩
      ([.openSession, .openSession, .openCursor 0 [.string (js "t")], .cursorClose 0,
        .checkpoint, .finalizeSession 1] ++ [.connectionClose])).world.log 10 = 1 ∧
    sessionCloses (System.run freshEngine ⟨⟨0, []⟩, ⟨1, SessionMap.empty⟩, [], []⟩
      ([.openSession, .openSession, .openCursor 0 [.string (js "t")], .cursorClose 0,
        .checkpoint, .finalizeSession 1] ++ [.connectionClose])).world.log 11 = 1 ∧
    sessionCloses (System.run freshEngine ⟨⟨0, []⟩, ⟨1, SessionMap.empty⟩, [], []⟩
      ([.openSession, .sessionClose 0, .releaseSession [.string (js "10")]] ++
        [.connectionClose])).world.log 10 = 1 :=
  ⟨((session_close_accounting freshEngine ⟨⟨0, []⟩, ⟨1, SessionMap.empty⟩, [], []⟩
      [.openSession, .openSession, .openCursor 0 [.string (js "t")], .cursorClose 0,
        .checkpoint, .finalizeSession 1] 10 idKeyed_empty (by decide)).2.2
      (by decide) (by decide)).mpr (by decide),
    ((session_close_accounting freshEngine ⟨⟨0, []⟩, ⟨1, SessionMap.empty⟩, [], []⟩
      [.openSession, .openSession, .openCursor 0 [.string (js "t")], .cursorClose 0,
        .checkpoint, .finalizeSession 1] 11 idKeyed_empty (by decide)).2.2
      (by decide) (by decide)).mpr (by decide),
    ((session_close_accounting freshEngine ⟨⟨0, []⟩, ⟨1, SessionMap.empty⟩, [], []⟩
      [.openSession, .sessionClose 0, .releaseSession [.string (js "10")]] 10
      idKeyed_empty (by decide)).2.2 (by decide) (by decide)).mpr (by decide)⟩

/-! ## C6: Session.close and open cursors -/

/-- C6 fails on the code: on connection 1, `openSession()` (handle 5), `openCursor("t")`
(cursor handle 7), then `Session.close()`. The close does not refuse: it returns success
after calling the engine's session close on 5; and it does not close the cursor: the
cursor wrapper still holds handle 7. -/
theorem session_close_under_open_cursor :
    (WiredTigerSession.Close (demoEngine 0) ⟨5, some (js "5")⟩ []
        (System.run (demoEngine 0) ⟨⟨(), []⟩, ⟨1, SessionMap.empty⟩, [], []⟩
          [.openSession, .openCursor 0 [.string (js "t")]]).world).1 =
      .ok (.boolean true) ∧
    (System.run (demoEngine 0) ⟨⟨(), []⟩, ⟨1, SessionMap.empty⟩, [], []⟩
        [.openSession, .openCursor 0 [.string (js "t")], .sessionClose 0]) =
      ⟨⟨(), [.conn_open_session 1, .session_open_cursor 5 (ascii "table:t") none,
          .session_close 5]⟩,
        ⟨1, SessionMap.empty.insert (to_string 5) 5⟩,
        [some ⟨0, some (js "5")⟩],
        [some ⟨7, 5, [], []⟩]⟩ := by
  decide

/-- C6 as amended. `Session.close()` keeps no track of cursors. Applied to any session
wrapper of any system it leaves every cursor wrapper as it was, and the only native call
it makes is the engine's session close on its own handle, made whenever that handle is
non-null, whatever cursors are open. -/
theorem session_close_ignores_cursors {σ : Type} (E : Engine σ) (s : System σ) (i : Nat) :
    (s.step E (.sessionClose i)).cursors = s.cursors ∧
    (s.step E (.sessionClose i)).world.log =
      s.world.log ++
        (match slot s.sessions i with
         | some obj => if obj.session_ ≠ 0 then [EngineCall.session_close obj.session_] else []
         | none => []) := by
  cases hslot : slot s.sessions i with
  | none => simp [System.step, hslot]
  | some obj =>
    by_cases hz : obj.session_ = 0
    · simp [System.step, hslot, WiredTigerSession.Close, hz]
    · have h := step_sessionClose_effect E s i obj hslot hz
      simp [h.1, h.2.2, hz]

/-! ## C7: Connection.openSession -/

theorem find_insert_other (m : SessionMap) (k q : Bytes) (v : Nat) (hq : q ≠ k) :
    (m.insert k v).find q = m.find q := by
  simp [SessionMap.find, SessionMap.insert, findEntry_insertEntry, hq]

/-- C7. `openSession()` on a null connection handle raises "Connection not open", makes
no native call and changes nothing. On a non-null handle it calls the engine's
`open_session` once. If that returns 0 with the (non-null) session handle `h`, the result
is a Session wrapping `h`, and the registry afterwards maps the identifier
`to_string h` to `h` and every other key to what it mapped to before. If it returns a
non-zero status, the result is the Error "Failed to open session: " followed by the
engine's message, and the connection (hence the registry) is unchanged. -/
theorem openSession_spec {σ : Type} (E : Engine σ) (self : WiredTigerConnection)
    (info : List JsValue) (w : World σ) :
    (self.conn_ = 0 →
      self.OpenSession E info w = (.raise (.error "Connection not open"), self, w)) ∧
    (self.conn_ ≠ 0 →
      (E.respond w.eng (.conn_open_session self.conn_)).1.ret = 0 →
      (E.respond w.eng (.conn_open_session self.conn_)).1.handle ≠ 0 →
      (self.OpenSession E info w).1 =
          .ok ⟨(E.respond w.eng (.conn_open_session self.conn_)).1.handle,
            some (StringNew
              (to_string (E.respond w.eng (.conn_open_session self.conn_)).1.handle))⟩ ∧
        (self.OpenSession E info w).2.1.conn_ = self.conn_ ∧
        (self.OpenSession E info w).2.1.sessions_.find
            (to_string (E.respond w.eng (.conn_open_session self.conn_)).1.handle) =
          some (E.respond w.eng (.conn_open_session self.conn_)).1.handle ∧
        (∀ k : Bytes,
          k ≠ to_string (E.respond w.eng (.conn_open_session self.conn_)).1.handle →
          (self.OpenSession E info w).2.1.sessions_.find k = self.sessions_.find k) ∧
        (self.OpenSession E info w).2.2.log =
          w.log ++ [.conn_open_session self.conn_]) ∧
    (self.conn_ ≠ 0 →
      (E.respond w.eng (.conn_open_session self.conn_)).1.ret ≠ 0 →
      (self.OpenSession E info w).1 =
          .raise (.error ("Failed to open session: " ++
            E.strerror (E.respond w.eng (.conn_open_session self.conn_)).1.ret)) ∧
        (self.OpenSession E info w).2.1 = self ∧
        (self.OpenSession E info w).2.2.log =
          w.log ++ [.conn_open_session self.conn_]) := by
  refine ⟨?_, ?_, ?_⟩
  · intro hc
    simp [WiredTigerConnection.OpenSession, hc]
  · intro hc hret hnz
    have hr : self.OpenSession E info w =
        (.ok ⟨(E.respond w.eng (.conn_open_session self.conn_)).1.handle,
            some (StringNew
              (to_string (E.respond w.eng (.conn_open_session self.conn_)).1.handle))⟩,
          ⟨self.conn_, self.sessions_.insert
            (to_string (E.respond w.eng (.conn_open_session self.conn_)).1.handle)
            (E.respond w.eng (.conn_open_session self.conn_)).1.handle⟩,
          (w.call E (.conn_open_session self.conn_)).2) := by
      simp [WiredTigerConnection.OpenSession, WiredTigerSession.NewInstance, World.call,
        hc, hret, hnz, utf8Value_stringNew_to_string]
    rw [hr]
    exact ⟨rfl, rfl, find_insert_self _ _ _, fun k hk => find_insert_other _ _ _ _ hk, rfl⟩
  · intro hc hret
    simp [WiredTigerConnection.OpenSession, World.call, hc, hret]

/-- C7 at concrete inputs: a closed connection; connection 1 with session 9 registered and
an engine handing back session 5; the same connection with an engine failing with
status 12. -/
theorem openSession_spec_witness :
    WiredTigerConnection.OpenSession (demoEngine 0) ⟨0, SessionMap.empty⟩ [] ⟨(), []⟩ =
      (.raise (.error "Connection not open"), ⟨0, SessionMap.empty⟩, ⟨(), []⟩) ∧
    ((WiredTigerConnection.OpenSession (demoEngine 0)
          ⟨1, SessionMap.empty.insert (to_string 9) 9⟩ [] ⟨(), []⟩).1 =
        .ok ⟨5, some (js "5")⟩ ∧
      (WiredTigerConnection.OpenSession (demoEngine 0)
          ⟨1, SessionMap.empty.insert (to_string 9) 9⟩ [] ⟨(), []⟩).2.1.sessions_.find
          (to_string 5) = some 5) ∧
    ((WiredTigerConnection.OpenSession (demoEngine 12)
          ⟨1, SessionMap.empty.insert (to_string 9) 9⟩ [] ⟨(), []⟩).1 =
        .raise (.error "Failed to open session: 12") ∧
      (WiredTigerConnection.OpenSession (demoEngine 12)
          ⟨1, SessionMap.empty.insert (to_string 9) 9⟩ [] ⟨(), []⟩).2.1 =
        ⟨1, SessionMap.empty.insert (to_string 9) 9⟩) :=
  have h0 := (openSession_spec (demoEngine 0) ⟨0, SessionMap.empty⟩ [] ⟨(), []⟩).1 rfl
  have h1 := (openSession_spec (demoEngine 0)
    ⟨1, SessionMap.empty.insert (to_string 9) 9⟩ [] ⟨(), []⟩).2.1
    (by decide) (by decide) (by decide)
  have h2 := (openSession_spec (demoEngine 12)
    ⟨1, SessionMap.empty.insert (to_string 9) 9⟩ [] ⟨(), []⟩).2.2 (by decide) (by decide)
  ⟨h0, ⟨h1.1, h1.2.2.1⟩, ⟨h2.1, h2.2.1⟩⟩

/-! ## C8: Connection.releaseSession -/

/-- C8. For every connection, every string `id` (and whatever further arguments),
`releaseSession(id)` returns success and leaves the engine state and the call log
untouched: it makes no native call. The connection handle is unchanged, and the registry
afterwards is the prior registry without the entry whose key is `id` (the key being the
UTF-8 bytes of `id`): `id` is no longer a key, every other key maps to what it mapped to
before, and when `id` was not a key the connection is unchanged. -/
theorem releaseSession_spec {σ : Type} (E : Engine σ) (self : WiredTigerConnection)
    (sessionId : JsString) (rest : List JsValue) (w : World σ) :
    (self.ReleaseSession E (.string sessionId :: rest) w).1 = .ok (.boolean true) ∧
    (self.ReleaseSession E (.string sessionId :: rest) w).2.2 = w ∧
    (self.ReleaseSession E (.string sessionId :: rest) w).2.1.conn_ = self.conn_ ∧
    (self.ReleaseSession E (.string sessionId :: rest) w).2.1.sessions_.entries =
      self.sessions_.entries.filter (fun p => p.1 != Utf8Value sessionId) ∧
    (self.ReleaseSession E (.string sessionId :: rest) w).2.1.sessions_.find (Utf8Value sessionId)
      = none ∧
    (∀ k : Bytes, k ≠ Utf8Value sessionId →
      (self.ReleaseSession E (.string sessionId :: rest) w).2.1.sessions_.find k =
        self.sessions_.find k) ∧
    (self.sessions_.find (Utf8Value sessionId) = none →
      (self.ReleaseSession E (.string sessionId :: rest) w).2.1 = self) := by
  refine ⟨rfl, rfl, rfl, ?_, ?_, ?_, ?_⟩
  · exact eraseEntry_eq_filter (Utf8Value sessionId) self.sessions_.entries self.sessions_.sorted
  · exact find_erase_self _ _
  · intro k hk
    simp [WiredTigerConnection.ReleaseSession, SessionMap.find, SessionMap.erase,
      findEntry_eraseEntry (Utf8Value sessionId) k self.sessions_.entries self.sessions_.sorted, hk]
  · intro hnone
    obtain ⟨c, ⟨entries, sorted⟩⟩ := self
    simp only [SessionMap.find] at hnone
    simp [WiredTigerConnection.ReleaseSession, SessionMap.erase,
      eraseEntry_of_findEntry_none (Utf8Value sessionId) entries hnone]

/-- C8 at a concrete input: sessions 5 and 9 registered, `releaseSession` of the
identifier of 5, then of an identifier that is not registered. -/
theorem releaseSession_spec_witness :
    (WiredTigerConnection.ReleaseSession (demoEngine 0)
        ⟨1, (SessionMap.empty.insert (to_string 5) 5).insert (to_string 9) 9⟩
        [.string (js "5")] ⟨(), []⟩).2.1.sessions_.entries = [(to_string 9, 9)] ∧
    (WiredTigerConnection.ReleaseSession (demoEngine 0)
        ⟨1, (SessionMap.empty.insert (to_string 5) 5).insert (to_string 9) 9⟩
        [.string (js "7")] ⟨(), []⟩).2.1 =
      ⟨1, (SessionMap.empty.insert (to_string 5) 5).insert (to_string 9) 9⟩ :=
  ⟨(releaseSession_spec (demoEngine 0)
      ⟨1, (SessionMap.empty.insert (to_string 5) 5).insert (to_string 9) 9⟩
      (js "5") [] ⟨(), []⟩).2.2.2.1,
    (releaseSession_spec (demoEngine 0)
      ⟨1, (SessionMap.empty.insert (to_string 5) 5).insert (to_string 9) 9⟩
      (js "7") [] ⟨(), []⟩).2.2.2.2.2.2 (by decide)⟩

/-! ## C9: Connection.checkpoint -/

/-- C9. `checkpoint()` on a null connection handle raises "Connection not open" and makes
no native call. On a non-null handle, when the internal `open_session` returns 0 with the
(non-null) session `h`, the native calls made are exactly `open_session`, the engine's
checkpoint on `h` and the engine's session close on `h`, in this order, so the close is
issued once whatever the checkpoint returned; the connection, hence its registry, is
unchanged; and the result is success exactly when the checkpoint status is 0, and
otherwise the Error "Checkpoint failed: " followed by the engine's message. -/
theorem checkpoint_spec {σ : Type} (E : Engine σ) (self : WiredTigerConnection)
    (info : List JsValue) (w : World σ) :
    (self.conn_ = 0 →
      self.Checkpoint E info w = (.raise (.error "Connection not open"), self, w)) ∧
    (self.conn_ ≠ 0 →
      (E.respond w.eng (.conn_open_session self.conn_)).1.ret = 0 →
      (E.respond w.eng (.conn_open_session self.conn_)).1.handle ≠ 0 →
      (self.Checkpoint E info w).2.2.log =
          w.log ++ [.conn_open_session self.conn_,
            .session_checkpoint (E.respond w.eng (.conn_open_session self.conn_)).1.handle,
            .session_close (E.respond w.eng (.conn_open_session self.conn_)).1.handle] ∧
        sessionCloses (self.Checkpoint E info w).2.2.log
            (E.respond w.eng (.conn_open_session self.conn_)).1.handle =
          sessionCloses w.log (E.respond w.eng (.conn_open_session self.conn_)).1.handle
            + 1 ∧
        (self.Checkpoint E info w).2.1 = self ∧
        ((self.Checkpoint E info w).1 = .ok (.boolean true) ↔
          (E.respond (E.respond w.eng (.conn_open_session self.conn_)).2
            (.session_checkpoint
              (E.respond w.eng (.conn_open_session self.conn_)).1.handle)).1.ret = 0) ∧
        ((E.respond (E.respond w.eng (.conn_open_session self.conn_)).2
            (.session_checkpoint
              (E.respond w.eng (.conn_open_session self.conn_)).1.handle)).1.ret ≠ 0 →
          (self.Checkpoint E info w).1 =
            .raise (.error ("Checkpoint failed: " ++ E.strerror
              (E.respond (E.respond w.eng (.conn_open_session self.conn_)).2
                (.session_checkpoint
                  (E.respond w.eng (.conn_open_session self.conn_)).1.handle)).1.ret)))) := by
  refine ⟨?_, ?_⟩
  · intro hc
    simp [WiredTigerConnection.Checkpoint, hc]
  · intro hc hret hnz
    have hlog : (self.Checkpoint E info w).2.2.log =
        w.log ++ [.conn_open_session self.conn_,
          .session_checkpoint (E.respond w.eng (.conn_open_session self.conn_)).1.handle,
          .session_close (E.respond w.eng (.conn_open_session self.conn_)).1.handle] := by
      by_cases hck : (E.respond (E.respond w.eng (.conn_open_session self.conn_)).2
          (.session_checkpoint
            (E.respond w.eng (.conn_open_session self.conn_)).1.handle)).1.ret = 0 <;>
        simp [WiredTigerConnection.Checkpoint, World.call, hc, hret, hnz, hck]
    refine ⟨hlog, ?_, ?_, ?_, ?_⟩
    · rw [hlog, sessionCloses_append]
      simp [sessionCloses]
    · by_cases hck : (E.respond (E.respond w.eng (.conn_open_session self.conn_)).2
          (.session_checkpoint
            (E.respond w.eng (.conn_open_session self.conn_)).1.handle)).1.ret = 0 <;>
        simp [WiredTigerConnection.Checkpoint, World.call, hc, hret, hnz, hck]
    · by_cases hck : (E.respond (E.respond w.eng (.conn_open_session self.conn_)).2
          (.session_checkpoint
            (E.respond w.eng (.conn_open_session self.conn_)).1.handle)).1.ret = 0 <;>
        simp [WiredTigerConnection.Checkpoint, World.call, hc, hret, hnz, hck]
    · intro hck
      simp [WiredTigerConnection.Checkpoint, World.call, hc, hret, hnz, hck]

/-- C9 at concrete inputs: a closed connection; connection 1 with session 9 registered on
an engine whose calls all return 0 and which hands back session 5. -/
theorem checkpoint_spec_witness :
    WiredTigerConnection.Checkpoint (demoEngine 0) ⟨0, SessionMap.empty⟩ [] ⟨(), []⟩ =
      (.raise (.error "Connection not open"), ⟨0, SessionMap.empty⟩, ⟨(), []⟩) ∧
    (WiredTigerConnection.Checkpoint (demoEngine 0)
        ⟨1, SessionMap.empty.insert (to_string 9) 9⟩ [] ⟨(), []⟩).2.2.log =
      [.conn_open_session 1, .session_checkpoint 5, .session_close 5] ∧
    (WiredTigerConnection.Checkpoint (demoEngine 0)
        ⟨1, SessionMap.empty.insert (to_string 9) 9⟩ [] ⟨(), []⟩).2.1 =
      ⟨1, SessionMap.empty.insert (to_string 9) 9⟩ :=
  have h0 := (checkpoint_spec (demoEngine 0) ⟨0, SessionMap.empty⟩ [] ⟨(), []⟩).1 rfl
  have h1 := (checkpoint_spec (demoEngine 0)
    ⟨1, SessionMap.empty.insert (to_string 9) 9⟩ [] ⟨(), []⟩).2
    (by decide) (by decide) (by decide)
  ⟨h0, h1.1, h1.2.2.1⟩

/-! ## C10: set, insert, search -/

theorem copy_whole (b : Bytes) (m : Buffer) : (WT_ITEM.mk b b.length m).copy = b := by
  simp [WT_ITEM.copy]

theorem rawEngine_rawTableCursor (c : Nat) : RawTableCursor rawEngine c := by
  refine ⟨fun s => s.key, fun s => s.value, fun s k => s.table.lookup k, ?_, ?_, ?_, ?_, ?_⟩
  · intro s item
    exact ⟨rfl, rfl, rfl⟩
  · intro s item
    exact ⟨rfl, rfl, rfl⟩
  · intro s _
    simp [rawEngine, List.lookup]
  · intro s v hv
    simp only at hv
    simp [rawEngine, hv]
  · intro s
    simp [rawEngine, WT_ITEM.copy]

/-- What `search` returns after `set` and a successful `insert`, on an open cursor whose
engine keeps the contract `RawTableCursor`, in terms of the staged bytes: the string
decoded from the bytes of the value. -/
theorem search_after_set_insert {σ : Type} (E : Engine σ) (c c1 c2 : WiredTigerCursor)
    (K V : JsString) (rest1 info rest2 : List JsValue) (w w1 w2 : World σ)
    (o1 : Outcome JsValue) (hc : c.cursor_ ≠ 0) (hE : RawTableCursor E c.cursor_)
    (hset : c.Set E (.string K :: .string V :: rest1) w = (o1, c1, w1))
    (hins : c1.Insert E info w1 = (.ok (.boolean true), c2, w2)) :
    o1 = .ok (.boolean true) ∧
    (c2.Search E (.string K :: rest2) w2).1 = .ok (.string (StringNew (Utf8Value V))) := by
  obtain ⟨key, value, table, hsk, hsv, hi, hs, hg⟩ := hE
  simp only [WiredTigerCursor.Set, hc, if_false, Prod.mk.injEq] at hset
  obtain ⟨ho1, hc1, hw1⟩ := hset
  subst hc1 hw1
  refine ⟨ho1.symm, ?_⟩
  by_cases hr : (E.respond (E.respond (E.respond w.eng
      (.cursor_set_key c.cursor_ ⟨Utf8Value K, (Utf8Value K).length, .pendingKey⟩)).2
      (.cursor_set_value c.cursor_ ⟨Utf8Value V, (Utf8Value V).length, .pendingValue⟩)).2
      (.cursor_insert c.cursor_)).1.ret = 0
  · simp only [WiredTigerCursor.Insert, hc, if_false, World.call, hr, ne_eq,
      not_true_eq_false, Prod.mk.injEq, true_and] at hins
    obtain ⟨hc2, hw2⟩ := hins
    subst hc2 hw2
    have hkey1 := hsv (E.respond w.eng
      (.cursor_set_key c.cursor_ ⟨Utf8Value K, (Utf8Value K).length, .pendingKey⟩)).2
      ⟨Utf8Value V, (Utf8Value V).length, .pendingValue⟩
    have hkey0 := hsk w.eng ⟨Utf8Value K, (Utf8Value K).length, .pendingKey⟩
    have hins := hi _ hr
    rw [hkey1.2.1, hkey1.1, hkey0.1, copy_whole, copy_whole] at hins
    have hkey2 := hsk (E.respond (E.respond (E.respond w.eng
      (.cursor_set_key c.cursor_ ⟨Utf8Value K, (Utf8Value K).length, .pendingKey⟩)).2
      (.cursor_set_value c.cursor_ ⟨Utf8Value V, (Utf8Value V).length, .pendingValue⟩)).2
      (.cursor_insert c.cursor_)).2 ⟨Utf8Value K, (Utf8Value K).length, .callLocal⟩
    rw [copy_whole] at hkey2
    have hfound := hs _ (Utf8Value V) (by rw [hkey2.1, hkey2.2.2]; exact hins)
    simp only [WiredTigerCursor.Search, hc, if_false, World.call, hfound.1, if_true]
    rw [hg, hfound.2]
  · simp [WiredTigerCursor.Insert, hc, World.call, hr] at hins

/-- C10 fails on the code for a value with an unpaired surrogate. On cursor 7 of the
reference engine with an empty table: `set("k", V)` with `V` the one code unit U+D800,
then `insert()`, which succeeds, then `search("k")` returns the string U+FFFD, which is
not `V`. -/
theorem search_returns_replacement_for_lone_surrogate :
    (WiredTigerCursor.Insert rawEngine
      (WiredTigerCursor.Set rawEngine ⟨7, 5, [], []⟩ [.string (js "k"), .string [0xD800]]
        ⟨⟨[], [], []⟩, []⟩).2.1 []
      (WiredTigerCursor.Set rawEngine ⟨7, 5, [], []⟩ [.string (js "k"), .string [0xD800]]
        ⟨⟨[], [], []⟩, []⟩).2.2).1 = .ok (.boolean true) ∧
    (WiredTigerCursor.Search rawEngine
      (WiredTigerCursor.Insert rawEngine
        (WiredTigerCursor.Set rawEngine ⟨7, 5, [], []⟩ [.string (js "k"), .string [0xD800]]
          ⟨⟨[], [], []⟩, []⟩).2.1 []
        (WiredTigerCursor.Set rawEngine ⟨7, 5, [], []⟩ [.string (js "k"), .string [0xD800]]
          ⟨⟨[], [], []⟩, []⟩).2.2).2.1
      [.string (js "k")]
      (WiredTigerCursor.Insert rawEngine
        (WiredTigerCursor.Set rawEngine ⟨7, 5, [], []⟩ [.string (js "k"), .string [0xD800]]
          ⟨⟨[], [], []⟩, []⟩).2.1 []
        (WiredTigerCursor.Set rawEngine ⟨7, 5, [], []⟩ [.string (js "k"), .string [0xD800]]
          ⟨⟨[], [], []⟩, []⟩).2.2).2.2).1 = .ok (.string [0xFFFD]) ∧
    JsValue.string [0xFFFD] ≠ JsValue.string [0xD800] := by
  decide

/-- C10 as amended. On an open cursor (non-null handle) whose engine keeps the contract
`RawTableCursor`, for all strings `K` and `V`: if `set(K, V)` is called, then `insert()`
returns success, then `search(K)` returns `V` as it comes back from its UTF-8 bytes,
which is `V` with each unpaired surrogate replaced by U+FFFD and nothing else dropped or
changed. So `search(K)` returns exactly `V` if and only if `V` has no unpaired surrogate
(further arguments to the calls are ignored). -/
theorem set_insert_search_roundtrip {σ : Type} (E : Engine σ) (c c1 c2 : WiredTigerCursor)
    (K V : JsString) (rest1 info rest2 : List JsValue) (w w1 w2 : World σ)
    (o1 : Outcome JsValue) (hc : c.cursor_ ≠ 0) (hE : RawTableCursor E c.cursor_)
    (hset : c.Set E (.string K :: .string V :: rest1) w = (o1, c1, w1))
    (hins : c1.Insert E info w1 = (.ok (.boolean true), c2, w2)) :
    o1 = .ok (.boolean true) ∧
    (c2.Search E (.string K :: rest2) w2).1 = .ok (.string (StringNew (Utf8Value V))) ∧
    StringNew (Utf8Value V) = (codePoints V).flatMap utf16Encode ∧
    ((c2.Search E (.string K :: rest2) w2).1 = .ok (.string V) ↔ wellFormed V = true) := by
  have h := search_after_set_insert E c c1 c2 K V rest1 info rest2 w w1 w2 o1 hc hE hset hins
  refine ⟨h.1, h.2, stringNew_utf8Value V, ?_⟩
  · rw [h.2, ← roundtrip_iff_wellFormed]
    constructor
    · intro e
      injection e with e
      injection e
    · intro e
      rw [e]

/-- C10 amended, at a concrete input on the reference engine with an empty table: the key
"k", NUL, euro sign and the value made of U+0000, U+00FF, a surrogate pair and "v" come
back unchanged. -/
theorem set_insert_search_roundtrip_witness :
    (WiredTigerCursor.Search rawEngine
        ⟨7, 5, Utf8Value [107, 0, 0x20AC], Utf8Value [0, 255, 0xD83D, 0xDE00, 118]⟩
        [.string [107, 0, 0x20AC]]
        ⟨⟨[(Utf8Value [107, 0, 0x20AC], Utf8Value [0, 255, 0xD83D, 0xDE00, 118])],
            Utf8Value [107, 0, 0x20AC], Utf8Value [0, 255, 0xD83D, 0xDE00, 118]⟩,
          [.cursor_set_key 7 ⟨Utf8Value [107, 0, 0x20AC], 5, .pendingKey⟩,
            .cursor_set_value 7 ⟨Utf8Value [0, 255, 0xD83D, 0xDE00, 118], 8,
              .pendingValue⟩,
            .cursor_insert 7]⟩).1 = .ok (.string [0, 255, 0xD83D, 0xDE00, 118]) :=
  (set_insert_search_roundtrip rawEngine ⟨7, 5, [], []⟩
    ⟨7, 5, Utf8Value [107, 0, 0x20AC], Utf8Value [0, 255, 0xD83D, 0xDE00, 118]⟩
    ⟨7, 5, Utf8Value [107, 0, 0x20AC], Utf8Value [0, 255, 0xD83D, 0xDE00, 118]⟩
    [107, 0, 0x20AC] [0, 255, 0xD83D, 0xDE00, 118] [] [] [] ⟨⟨[], [], []⟩, []⟩
    ⟨⟨[], Utf8Value [107, 0, 0x20AC], Utf8Value [0, 255, 0xD83D, 0xDE00, 118]⟩,
      [.cursor_set_key 7 ⟨Utf8Value [107, 0, 0x20AC], 5, .pendingKey⟩,
        .cursor_set_value 7 ⟨Utf8Value [0, 255, 0xD83D, 0xDE00, 118], 8, .pendingValue⟩]⟩
    ⟨⟨[(Utf8Value [107, 0, 0x20AC], Utf8Value [0, 255, 0xD83D, 0xDE00, 118])],
        Utf8Value [107, 0, 0x20AC], Utf8Value [0, 255, 0xD83D, 0xDE00, 118]⟩,
      [.cursor_set_key 7 ⟨Utf8Value [107, 0, 0x20AC], 5, .pendingKey⟩,
        .cursor_set_value 7 ⟨Utf8Value [0, 255, 0xD83D, 0xDE00, 118], 8, .pendingValue⟩,
        .cursor_insert 7]⟩
    (.ok (.boolean true)) (by decide) (rawEngine_rawTableCursor 7)
    (by decide) (by decide)).2.2.2.mpr (by decide)

/-! ## C11: what `set` stages -/

theorem pending_unchanged {σ : Type} (E : Engine σ) (d : WiredTigerCursor)
    (info : List JsValue) (w : World σ) :
    ∀ op ∈ [
        WiredTigerCursor.Get E d info, WiredTigerCursor.Search E d info,
        WiredTigerCursor.SearchNear E d info, WiredTigerCursor.Next E d info,
        WiredTigerCursor.Prev E d info, WiredTigerCursor.Reset E d info,
        WiredTigerCursor.Insert E d info, WiredTigerCursor.Update E d info,
        WiredTigerCursor.Remove E d info, WiredTigerCursor.Close E d info,
        WiredTigerCursor.GetRawKey E d info, WiredTigerCursor.GetRawValue E d info,
        WiredTigerCursor.SetRawKey E d info, WiredTigerCursor.SetRawValue E d info],
      (op w).2.1.pending_key_ = d.pending_key_ ∧
      (op w).2.1.pending_value_ = d.pending_value_ := by
  intro op hop
  simp only [List.mem_cons, List.mem_singleton, List.not_mem_nil, or_false] at hop
  rcases hop with h | h | h | h | h | h | h | h | h | h | h | h | h | h <;> subst h
  · simp only [WiredTigerCursor.Get]
    repeat' split
    all_goals exact ⟨rfl, rfl⟩
  · simp only [WiredTigerCursor.Search]
    repeat' split
    all_goals exact ⟨rfl, rfl⟩
  · simp only [WiredTigerCursor.SearchNear]
    repeat' split
    all_goals exact ⟨rfl, rfl⟩
  · simp only [WiredTigerCursor.Next]
    repeat' split
    all_goals exact ⟨rfl, rfl⟩
  · simp only [WiredTigerCursor.Prev]
    repeat' split
    all_goals exact ⟨rfl, rfl⟩
  · simp only [WiredTigerCursor.Reset]
    repeat' split
    all_goals exact ⟨rfl, rfl⟩
  · simp only [WiredTigerCursor.Insert]
    repeat' split
    all_goals exact ⟨rfl, rfl⟩
  · simp only [WiredTigerCursor.Update]
    repeat' split
    all_goals exact ⟨rfl, rfl⟩
  · simp only [WiredTigerCursor.Remove]
    repeat' split
    all_goals exact ⟨rfl, rfl⟩
  · simp only [WiredTigerCursor.Close]
    repeat' split
    all_goals exact ⟨rfl, rfl⟩
  · simp only [WiredTigerCursor.GetRawKey]
    repeat' split
    all_goals exact ⟨rfl, rfl⟩
  · simp only [WiredTigerCursor.GetRawValue]
    repeat' split
    all_goals exact ⟨rfl, rfl⟩
  · simp only [WiredTigerCursor.SetRawKey]
    repeat' split
    all_goals exact ⟨rfl, rfl⟩
  · simp only [WiredTigerCursor.SetRawValue]
    repeat' split
    all_goals exact ⟨rfl, rfl⟩

/-- C11. On an open cursor (non-null handle), for all strings `K` and `V` and whatever
was pending before, `set(K, V)` returns success; afterwards the cursor's own buffers
`pending_key_` and `pending_value_` hold exactly the bytes of `K` and of `V` (their UTF-8
bytes, as `Utf8Value()` yields them); the two descriptors handed to the engine (`set_key`,
then `set_value`, and no other native call) designate those two buffers, carry their
bytes and have their sizes. And no cursor operation other than `set` changes the pending
buffers, whatever its arguments, on any cursor `d` and in any world: they stay as staged
until a later `set`. -/
theorem set_keeps_owned_copies {σ : Type} (E : Engine σ) (c d : WiredTigerCursor)
    (K V : JsString) (rest info : List JsValue) (w w2 : World σ) (hc : c.cursor_ ≠ 0) :
    (c.Set E (.string K :: .string V :: rest) w).1 = .ok (.boolean true) ∧
    (c.Set E (.string K :: .string V :: rest) w).2.1 =
      ⟨c.cursor_, c.session_, Utf8Value K, Utf8Value V⟩ ∧
    (c.Set E (.string K :: .string V :: rest) w).2.2.log =
      w.log ++ [
        .cursor_set_key c.cursor_
          ⟨(c.Set E (.string K :: .string V :: rest) w).2.1.pending_key_,
            (Utf8Value K).length, .pendingKey⟩,
        .cursor_set_value c.cursor_
          ⟨(c.Set E (.string K :: .string V :: rest) w).2.1.pending_value_,
            (Utf8Value V).length, .pendingValue⟩] ∧
    (∀ op ∈ [
        WiredTigerCursor.Get E d info, WiredTigerCursor.Search E d info,
        WiredTigerCursor.SearchNear E d info, WiredTigerCursor.Next E d info,
        WiredTigerCursor.Prev E d info, WiredTigerCursor.Reset E d info,
        WiredTigerCursor.Insert E d info, WiredTigerCursor.Update E d info,
        WiredTigerCursor.Remove E d info, WiredTigerCursor.Close E d info,
        WiredTigerCursor.GetRawKey E d info, WiredTigerCursor.GetRawValue E d info,
        WiredTigerCursor.SetRawKey E d info, WiredTigerCursor.SetRawValue E d info],
      (op w2).2.1.pending_key_ = d.pending_key_ ∧
      (op w2).2.1.pending_value_ = d.pending_value_) := by
  refine ⟨?_, ?_, ?_, pending_unchanged E d info w2⟩
  · simp [WiredTigerCursor.Set, hc]
  · simp [WiredTigerCursor.Set, hc]
  · simp [WiredTigerCursor.Set, hc, log_call]

/-- C11 at a concrete input: cursor 7 with "old" and "stale" pending, `set` of the key
"k", NUL, euro sign (five bytes) and of the value "v2". -/
theorem set_keeps_owned_copies_witness :
    WiredTigerCursor.Set (constEngine 0 0) ⟨7, 5, ascii "old", ascii "stale"⟩
        [.string [107, 0, 0x20AC], .string (js "v2")] ⟨(), []⟩ =
      (.ok (.boolean true), ⟨7, 5, [107, 0, 0xE2, 0x82, 0xAC], [118, 50]⟩,
        ⟨(), [.cursor_set_key 7 ⟨[107, 0, 0xE2, 0x82, 0xAC], 5, .pendingKey⟩,
          .cursor_set_value 7 ⟨[118, 50], 2, .pendingValue⟩]⟩) ∧
    (WiredTigerCursor.Search (constEngine 0 0) ⟨7, 5, [107, 0, 0xE2, 0x82, 0xAC], [118, 50]⟩
        [.string (js "other")] ⟨(), []⟩).2.1.pending_key_ = [107, 0, 0xE2, 0x82, 0xAC] :=
  have h := set_keeps_owned_copies (constEngine 0 0) ⟨7, 5, ascii "old", ascii "stale"⟩
    ⟨7, 5, [107, 0, 0xE2, 0x82, 0xAC], [118, 50]⟩ [107, 0, 0x20AC] (js "v2") []
    [.string (js "other")] ⟨(), []⟩ ⟨(), []⟩ (by decide)
  ⟨by decide, (h.2.2.2 _ (by simp)).1⟩

/-! ## C12: what `setRawKey` and `setRawValue` stage -/

/-- C12 fails on the code. On an open cursor, `setRawKey(B)` and `setRawValue(B)` keep no
copy of `B`: the wrapper (so its pending buffers) is left exactly as it was, and the
descriptor handed to the engine designates the storage of the caller's `ArrayBuffer`,
not a buffer of the cursor. -/
theorem setRaw_refers_to_caller_buffer {σ : Type} (E : Engine σ) (c : WiredTigerCursor)
    (B : Bytes) (rest : List JsValue) (w : World σ) (hc : c.cursor_ ≠ 0) :
    (c.SetRawKey E (.arrayBuffer B :: rest) w).1 = .ok (.boolean true) ∧
    (c.SetRawKey E (.arrayBuffer B :: rest) w).2.1 = c ∧
    (c.SetRawKey E (.arrayBuffer B :: rest) w).2.2.log =
      w.log ++ [.cursor_set_key c.cursor_ ⟨B, B.length, .callerArrayBuffer⟩] ∧
    (c.SetRawValue E (.arrayBuffer B :: rest) w).1 = .ok (.boolean true) ∧
    (c.SetRawValue E (.arrayBuffer B :: rest) w).2.1 = c ∧
    (c.SetRawValue E (.arrayBuffer B :: rest) w).2.2.log =
      w.log ++ [.cursor_set_value c.cursor_ ⟨B, B.length, .callerArrayBuffer⟩] := by
  simp [WiredTigerCursor.SetRawKey, WiredTigerCursor.SetRawValue, hc, log_call]

/-- C12 at a concrete input: cursor 7 with "old" and "stale" pending, `setRawKey` and
`setRawValue` of the three bytes 1, 2, 3. -/
theorem setRaw_refers_to_caller_buffer_witness :
    WiredTigerCursor.SetRawKey (constEngine 0 0) ⟨7, 5, ascii "old", ascii "stale"⟩
        [.arrayBuffer [1, 2, 3]] ⟨(), []⟩ =
      (.ok (.boolean true), ⟨7, 5, ascii "old", ascii "stale"⟩,
        ⟨(), [.cursor_set_key 7 ⟨[1, 2, 3], 3, .callerArrayBuffer⟩]⟩) ∧
    (WiredTigerCursor.SetRawValue (constEngine 0 0) ⟨7, 5, ascii "old", ascii "stale"⟩
        [.arrayBuffer [1, 2, 3]] ⟨(), []⟩).2.2.log =
      [.cursor_set_value 7 ⟨[1, 2, 3], 3, .callerArrayBuffer⟩] :=
  have h := setRaw_refers_to_caller_buffer (constEngine 0 0)
    ⟨7, 5, ascii "old", ascii "stale"⟩ [1, 2, 3] [] ⟨(), []⟩ (by decide)
  ⟨by decide, h.2.2.2.2.2⟩

/-! ## C13: search, searchNear, next, prev and the not-found status -/

theorem wt_notfound_ne_zero : WT_NOTFOUND ≠ 0 := by decide

/-- C13. On an open cursor, let `r` be the status the engine returns from the positioning
call of `search(K)`, `searchNear(B)`, `next()` or `prev()`. When `r = 0` the operation
returns a non-null result: for `search` the string made of the bytes copied out of the
item `get_value` hands back, for `searchNear` the object holding the engine's `exact`
indicator, for `next`/`prev` the pair of strings made of the bytes copied out of the
items `get_key` and `get_value` hand back (a string is made of bytes by `String::New`).
When `r` is `WT_NOTFOUND` it returns null and does not raise. It raises exactly when `r`
is any other non-zero status, and then the Error carries the engine's message for `r`. -/
theorem positioning_status_mapping {σ : Type} (E : Engine σ) (c : WiredTigerCursor)
    (K : JsString) (B : Bytes) (rest info : List JsValue) (w : World σ)
    (hc : c.cursor_ ≠ 0) :
    (∀ r, r = ((w.call E (.cursor_set_key c.cursor_
          ⟨Utf8Value K, (Utf8Value K).length, .callLocal⟩)).2.call E
          (.cursor_search c.cursor_)).1.ret →
      (r = 0 → (c.Search E (.string K :: rest) w).1 =
        .ok (.string (StringNew ((((w.call E (.cursor_set_key c.cursor_
          ⟨Utf8Value K, (Utf8Value K).length, .callLocal⟩)).2.call E
            (.cursor_search c.cursor_)).2.call E
              (.cursor_get_value c.cursor_)).1.item.copy)))) ∧
      (r = WT_NOTFOUND → (c.Search E (.string K :: rest) w).1 = .ok .null) ∧
      (r ≠ 0 → r ≠ WT_NOTFOUND → (c.Search E (.string K :: rest) w).1 =
        .raise (.error ("Search failed: " ++ E.strerror r))) ∧
      ((∃ e, (c.Search E (.string K :: rest) w).1 = .raise e) ↔
        (r ≠ 0 ∧ r ≠ WT_NOTFOUND))) ∧
    (∀ r, r = ((w.call E (.cursor_set_key c.cursor_
          ⟨B, B.length, .callerArrayBuffer⟩)).2.call E
          (.cursor_search_near c.cursor_)).1.ret →
      (r = 0 → (c.SearchNear E (.arrayBuffer B :: rest) w).1 =
        .ok (.exactObj ((w.call E (.cursor_set_key c.cursor_
          ⟨B, B.length, .callerArrayBuffer⟩)).2.call E
            (.cursor_search_near c.cursor_)).1.exact)) ∧
      (r = WT_NOTFOUND → (c.SearchNear E (.arrayBuffer B :: rest) w).1 = .ok .null) ∧
      (r ≠ 0 → r ≠ WT_NOTFOUND → (c.SearchNear E (.arrayBuffer B :: rest) w).1 =
        .raise (.error ("search_near failed: " ++ E.strerror r))) ∧
      ((∃ e, (c.SearchNear E (.arrayBuffer B :: rest) w).1 = .raise e) ↔
        (r ≠ 0 ∧ r ≠ WT_NOTFOUND))) ∧
    (∀ r, r = (w.call E (.cursor_next c.cursor_)).1.ret →
      (r = 0 → (c.Next E info w).1 =
        .ok (.keyValue
          (StringNew (((w.call E (.cursor_next c.cursor_)).2.call E
            (.cursor_get_key c.cursor_)).1.item.copy))
          (StringNew ((((w.call E (.cursor_next c.cursor_)).2.call E
            (.cursor_get_key c.cursor_)).2.call E
              (.cursor_get_value c.cursor_)).1.item.copy)))) ∧
      (r = WT_NOTFOUND → (c.Next E info w).1 = .ok .null) ∧
      (r ≠ 0 → r ≠ WT_NOTFOUND → (c.Next E info w).1 =
        .raise (.error ("Next failed: " ++ E.strerror r))) ∧
      ((∃ e, (c.Next E info w).1 = .raise e) ↔ (r ≠ 0 ∧ r ≠ WT_NOTFOUND))) ∧
    (∀ r, r = (w.call E (.cursor_prev c.cursor_)).1.ret →
      (r = 0 → (c.Prev E info w).1 =
        .ok (.keyValue
          (StringNew (((w.call E (.cursor_prev c.cursor_)).2.call E
            (.cursor_get_key c.cursor_)).1.item.copy))
          (StringNew ((((w.call E (.cursor_prev c.cursor_)).2.call E
            (.cursor_get_key c.cursor_)).2.call E
              (.cursor_get_value c.cursor_)).1.item.copy)))) ∧
      (r = WT_NOTFOUND → (c.Prev E info w).1 = .ok .null) ∧
      (r ≠ 0 → r ≠ WT_NOTFOUND → (c.Prev E info w).1 =
        .raise (.error ("Prev failed: " ++ E.strerror r))) ∧
      ((∃ e, (c.Prev E info w).1 = .raise e) ↔ (r ≠ 0 ∧ r ≠ WT_NOTFOUND))) := by
  have hnf := wt_notfound_ne_zero
  refine ⟨?_, ?_, ?_, ?_⟩
  · intro r hr
    subst hr
    refine ⟨?_, ?_, ?_, ?_⟩
    · intro h0
      simp [WiredTigerCursor.Search, hc, h0]
    · intro h1
      simp [WiredTigerCursor.Search, hc, h1, hnf]
    · intro h0 h1
      simp [WiredTigerCursor.Search, hc, h0, h1]
    · by_cases h0 : ((w.call E (.cursor_set_key c.cursor_
          ⟨Utf8Value K, (Utf8Value K).length, .callLocal⟩)).2.call E
          (.cursor_search c.cursor_)).1.ret = 0
      · simp [WiredTigerCursor.Search, hc, h0]
      · by_cases h1 : ((w.call E (.cursor_set_key c.cursor_
            ⟨Utf8Value K, (Utf8Value K).length, .callLocal⟩)).2.call E
            (.cursor_search c.cursor_)).1.ret = WT_NOTFOUND
        · simp [WiredTigerCursor.Search, hc, h1, hnf]
        · simp [WiredTigerCursor.Search, hc, h0, h1]
  · intro r hr
    subst hr
    refine ⟨?_, ?_, ?_, ?_⟩
    · intro h0
      simp [WiredTigerCursor.SearchNear, hc, h0]
    · intro h1
      simp [WiredTigerCursor.SearchNear, hc, h1, hnf]
    · intro h0 h1
      simp [WiredTigerCursor.SearchNear, hc, h0, h1]
    · by_cases h0 : ((w.call E (.cursor_set_key c.cursor_
          ⟨B, B.length, .callerArrayBuffer⟩)).2.call E
          (.cursor_search_near c.cursor_)).1.ret = 0
      · simp [WiredTigerCursor.SearchNear, hc, h0]
      · by_cases h1 : ((w.call E (.cursor_set_key c.cursor_
            ⟨B, B.length, .callerArrayBuffer⟩)).2.call E
            (.cursor_search_near c.cursor_)).1.ret = WT_NOTFOUND
        · simp [WiredTigerCursor.SearchNear, hc, h1, hnf]
        · simp [WiredTigerCursor.SearchNear, hc, h0, h1]
  · intro r hr
    subst hr
    refine ⟨?_, ?_, ?_, ?_⟩
    · intro h0
      simp [WiredTigerCursor.Next, hc, h0]
    · intro h1
      simp [WiredTigerCursor.Next, hc, h1, hnf]
    · intro h0 h1
      simp [WiredTigerCursor.Next, hc, h0, h1]
    · by_cases h0 : (w.call E (.cursor_next c.cursor_)).1.ret = 0
      · simp [WiredTigerCursor.Next, hc, h0]
      · by_cases h1 : (w.call E (.cursor_next c.cursor_)).1.ret = WT_NOTFOUND
        · simp [WiredTigerCursor.Next, hc, h1, hnf]
        · simp [WiredTigerCursor.Next, hc, h0, h1]
  · intro r hr
    subst hr
    refine ⟨?_, ?_, ?_, ?_⟩
    · intro h0
      simp [WiredTigerCursor.Prev, hc, h0]
    · intro h1
      simp [WiredTigerCursor.Prev, hc, h1, hnf]
    · intro h0 h1
      simp [WiredTigerCursor.Prev, hc, h0, h1]
    · by_cases h0 : (w.call E (.cursor_prev c.cursor_)).1.ret = 0
      · simp [WiredTigerCursor.Prev, hc, h0]
      · by_cases h1 : (w.call E (.cursor_prev c.cursor_)).1.ret = WT_NOTFOUND
        · simp [WiredTigerCursor.Prev, hc, h1, hnf]
        · simp [WiredTigerCursor.Prev, hc, h0, h1]

/-- C13 at concrete inputs on cursor 7: `next()` on the reference engine holding key "k"
and the value bytes 0, 255, "v", of which 255 is no UTF-8 and comes back as U+FFFD;
`search("k")` on its empty table; `prev()` on an engine failing with status 5;
`searchNear` on an engine answering 0. -/
theorem positioning_status_mapping_witness :
    (WiredTigerCursor.Next rawEngine ⟨7, 5, [], []⟩ [] ⟨⟨[], [107], [0, 255, 118]⟩, []⟩).1 =
      .ok (.keyValue [107] [0, 0xFFFD, 118]) ∧
    (WiredTigerCursor.Search rawEngine ⟨7, 5, [], []⟩ [.string [107]]
      ⟨⟨[], [], []⟩, []⟩).1 = .ok .null ∧
    (WiredTigerCursor.Prev (constEngine 5 0) ⟨7, 5, [], []⟩ [] ⟨(), []⟩).1 =
      .raise (.error "Prev failed: 5") ∧
    (WiredTigerCursor.SearchNear (constEngine 0 0) ⟨7, 5, [], []⟩ [.arrayBuffer [1]]
      ⟨(), []⟩).1 = .ok (.exactObj 0) :=
  have h1 := positioning_status_mapping rawEngine ⟨7, 5, [], []⟩ [107] [1] [] []
    ⟨⟨[], [107], [0, 255, 118]⟩, []⟩ (by decide)
  have h2 := positioning_status_mapping rawEngine ⟨7, 5, [], []⟩ [107] [1] [] []
    ⟨⟨[], [], []⟩, []⟩ (by decide)
  have h3 := positioning_status_mapping (constEngine 5 0) ⟨7, 5, [], []⟩ [107] [1] [] []
    ⟨(), []⟩ (by decide)
  have h4 := positioning_status_mapping (constEngine 0 0) ⟨7, 5, [], []⟩ [107] [1] [] []
    ⟨(), []⟩ (by decide)
  ⟨(h1.2.2.1 _ rfl).1 (by decide), (h2.1 _ rfl).2.1 (by decide),
    (h3.2.2.2 _ rfl).2.2.1 (by decide) (by decide), (h4.2.1 _ rfl).1 (by decide)⟩

/-! ## C14: remove and drop -/

/-- C14. On an open cursor, `remove()` returns success exactly when the status `r` of the
engine's remove is 0 or `WT_NOTFOUND`, and raises exactly for every other status, the
Error carrying the engine's message for `r`. On an open session, `drop(uri, config?)`
does the same with the status of the engine's drop. -/
theorem remove_drop_status_mapping {σ : Type} (E : Engine σ) (c : WiredTigerCursor)
    (s : WiredTigerSession) (uri : JsString) (rest info : List JsValue) (w : World σ)
    (hc : c.cursor_ ≠ 0) (hs : s.session_ ≠ 0) :
    (∀ r, r = (w.call E (.cursor_remove c.cursor_)).1.ret →
      ((c.Remove E info w).1 = .ok (.boolean true) ↔ (r = 0 ∨ r = WT_NOTFOUND)) ∧
      ((∃ e, (c.Remove E info w).1 = .raise e) ↔ ¬ (r = 0 ∨ r = WT_NOTFOUND)) ∧
      (¬ (r = 0 ∨ r = WT_NOTFOUND) →
        (c.Remove E info w).1 = .raise (.error ("Remove failed: " ++ E.strerror r)))) ∧
    (∀ r, r = (w.call E (.session_drop s.session_ (c_str (Utf8Value uri))
          (WiredTigerSession.optConfig (WiredTigerSession.optString rest [])))).1.ret →
      ((s.Drop E (.string uri :: rest) w).1 = .ok (.boolean true) ↔
        (r = 0 ∨ r = WT_NOTFOUND)) ∧
      ((∃ e, (s.Drop E (.string uri :: rest) w).1 = .raise e) ↔
        ¬ (r = 0 ∨ r = WT_NOTFOUND)) ∧
      (¬ (r = 0 ∨ r = WT_NOTFOUND) →
        (s.Drop E (.string uri :: rest) w).1 =
          .raise (.error ("Failed to drop object: " ++ E.strerror r)))) := by
  refine ⟨?_, ?_⟩
  · intro r hr
    subst hr
    by_cases h0 : (w.call E (.cursor_remove c.cursor_)).1.ret = 0
    · simp [WiredTigerCursor.Remove, hc, h0]
    · by_cases h1 : (w.call E (.cursor_remove c.cursor_)).1.ret = WT_NOTFOUND
      · simp [WiredTigerCursor.Remove, hc, h1]
      · simp [WiredTigerCursor.Remove, hc, h0, h1]
  · intro r hr
    subst hr
    by_cases h0 : (w.call E (.session_drop s.session_ (c_str (Utf8Value uri))
        (WiredTigerSession.optConfig (WiredTigerSession.optString rest [])))).1.ret = 0
    · simp [WiredTigerSession.Drop, hs, h0]
    · by_cases h1 : (w.call E (.session_drop s.session_ (c_str (Utf8Value uri))
          (WiredTigerSession.optConfig (WiredTigerSession.optString rest [])))).1.ret
          = WT_NOTFOUND
      · simp [WiredTigerSession.Drop, hs, h1]
      · simp [WiredTigerSession.Drop, hs, h0, h1]

/-- C14 at concrete inputs: `remove()` on cursor 7 and `drop("table:t")` on session 5, on
an engine answering `WT_NOTFOUND` and on an engine answering 16. -/
theorem remove_drop_status_mapping_witness :
    (WiredTigerCursor.Remove (constEngine WT_NOTFOUND 0) ⟨7, 5, [], []⟩ [] ⟨(), []⟩).1 =
      .ok (.boolean true) ∧
    (WiredTigerSession.Drop (constEngine WT_NOTFOUND 0) ⟨5, none⟩
      [.string (js "table:t")] ⟨(), []⟩).1 = .ok (.boolean true) ∧
    (WiredTigerCursor.Remove (constEngine 16 0) ⟨7, 5, [], []⟩ [] ⟨(), []⟩).1 =
      .raise (.error "Remove failed: 16") ∧
    (WiredTigerSession.Drop (constEngine 16 0) ⟨5, none⟩
      [.string (js "table:t")] ⟨(), []⟩).1 =
      .raise (.error "Failed to drop object: 16") :=
  have h1 := remove_drop_status_mapping (constEngine WT_NOTFOUND 0) ⟨7, 5, [], []⟩
    ⟨5, none⟩ (js "table:t") [] [] ⟨(), []⟩ (by decide) (by decide)
  have h2 := remove_drop_status_mapping (constEngine 16 0) ⟨7, 5, [], []⟩
    ⟨5, none⟩ (js "table:t") [] [] ⟨(), []⟩ (by decide) (by decide)
  ⟨(h1.1 _ rfl).1.mpr (by decide), (h1.2 _ rfl).1.mpr (by decide),
    (h2.1 _ rfl).2.2 (by decide), (h2.2 _ rfl).2.2 (by decide)⟩

/-! ## C15: createTable and createIndex -/

theorem c_str_of_no_nul (b : Bytes) (h : (0 : UInt8) ∉ b) : c_str b = b := by
  unfold c_str
  rw [List.takeWhile_eq_self_iff]
  intro x hx
  simp only [bne_iff_ne, ne_eq]
  intro e
  exact h (e ▸ hx)

theorem table_uri_no_nul (n : Bytes) (h : (0 : UInt8) ∉ n) :
    (0 : UInt8) ∉ ascii "table:" ++ n := by
  intro hm
  rcases List.mem_append.mp hm with h1 | h1
  · revert h1
    decide
  · exact h h1

theorem createTable_eval {σ : Type} (E : Engine σ) (s : WiredTigerSession) (n : JsString)
    (rest : List JsValue) (w : World σ) (hs : s.session_ ≠ 0) :
    s.CreateTable E (.string n :: rest) w =
      (if (w.call E (.session_create s.session_ (c_str (ascii "table:" ++ Utf8Value n))
            (c_str (WiredTigerSession.optString rest
              (ascii "key_format=S,value_format=S"))))).1.ret = 0 ∨
          (w.call E (.session_create s.session_ (c_str (ascii "table:" ++ Utf8Value n))
            (c_str (WiredTigerSession.optString rest
              (ascii "key_format=S,value_format=S"))))).1.ret = EEXIST
        then .ok (.boolean true)
        else .raise (.error ("Failed to create table: " ++ E.strerror
          (w.call E (.session_create s.session_ (c_str (ascii "table:" ++ Utf8Value n))
            (c_str (WiredTigerSession.optString rest
              (ascii "key_format=S,value_format=S"))))).1.ret)),
        s,
        (w.call E (.session_create s.session_ (c_str (ascii "table:" ++ Utf8Value n))
          (c_str (WiredTigerSession.optString rest
            (ascii "key_format=S,value_format=S"))))).2) := by
  by_cases h0 : (w.call E (.session_create s.session_ (c_str (ascii "table:" ++ Utf8Value n))
      (c_str (WiredTigerSession.optString rest
        (ascii "key_format=S,value_format=S"))))).1.ret = 0
  · simp [WiredTigerSession.CreateTable, hs, h0]
  · by_cases h1 : (w.call E (.session_create s.session_ (c_str (ascii "table:" ++ Utf8Value n))
        (c_str (WiredTigerSession.optString rest
          (ascii "key_format=S,value_format=S"))))).1.ret = EEXIST
    · simp [WiredTigerSession.CreateTable, hs, h1]
    · simp [WiredTigerSession.CreateTable, hs, h0, h1]

theorem createIndex_eval {σ : Type} (E : Engine σ) (s : WiredTigerSession)
    (uri config : JsString) (rest : List JsValue) (w : World σ) (hs : s.session_ ≠ 0) :
    s.CreateIndex E (.string uri :: .string config :: rest) w =
      (if (w.call E (.session_create s.session_ (c_str (Utf8Value uri))
            (c_str (Utf8Value config)))).1.ret = 0 ∨
          (w.call E (.session_create s.session_ (c_str (Utf8Value uri))
            (c_str (Utf8Value config)))).1.ret = EEXIST
        then .ok (.boolean true)
        else .raise (.error ("Failed to create index: " ++ E.strerror
          (w.call E (.session_create s.session_ (c_str (Utf8Value uri))
            (c_str (Utf8Value config)))).1.ret)),
        s,
        (w.call E (.session_create s.session_ (c_str (Utf8Value uri))
            (c_str (Utf8Value config)))).2) := by
  by_cases h0 : (w.call E (.session_create s.session_ (c_str (Utf8Value uri))
            (c_str (Utf8Value config)))).1.ret = 0
  · simp [WiredTigerSession.CreateIndex, hs, h0]
  · by_cases h1 :
        (w.call E (.session_create s.session_ (c_str (Utf8Value uri))
            (c_str (Utf8Value config)))).1.ret = EEXIST
    · simp [WiredTigerSession.CreateIndex, hs, h1]
    · simp [WiredTigerSession.CreateIndex, hs, h0, h1]

/-- C15 fails for a table name with a NUL byte: `createTable("a\0b")` on session 5 calls
the engine's create with the URI "table:a", which is not "table:" followed by the name,
and is the very call `createTable("a")` makes. -/
theorem createTable_truncates_at_nul :
    (WiredTigerSession.CreateTable (constEngine 0 0) ⟨5, none⟩ [.string [97, 0, 98]]
        ⟨(), []⟩).2.2.log =
      [.session_create 5 (ascii "table:a") (ascii "key_format=S,value_format=S")] ∧
    ascii "table:a" ≠ ascii "table:" ++ Utf8Value [97, 0, 98] ∧
    (WiredTigerSession.CreateTable (constEngine 0 0) ⟨5, none⟩ [.string [97, 0, 98]]
        ⟨(), []⟩).2.2.log =
      (WiredTigerSession.CreateTable (constEngine 0 0) ⟨5, none⟩ [.string [97]]
        ⟨(), []⟩).2.2.log := by
  decide

theorem default_config_c_str :
    c_str (ascii "key_format=S,value_format=S") = ascii "key_format=S,value_format=S" := by
  decide

theorem status_mapping_of_eval {σ : Type} {ω : Type} (E : Engine σ) (r : Int) (what : String)
    (res : Outcome JsValue × ω × World σ) (x : ω) (w1 : World σ)
    (he : res = (if r = 0 ∨ r = EEXIST then .ok (.boolean true)
      else .raise (.error (what ++ E.strerror r)), x, w1)) :
    (res.1 = .ok (.boolean true) ↔ (r = 0 ∨ r = EEXIST)) ∧
    (¬ (r = 0 ∨ r = EEXIST) → res.1 = .raise (.error (what ++ E.strerror r))) := by
  subst he
  by_cases h : r = 0 ∨ r = EEXIST <;> simp [h]

/-- C15 as amended. On an open session, for every table name `n` and config `cfg` with no
NUL byte (the strings reach the engine as their UTF-8 bytes): `createTable(n, cfg)` makes
one native call, the engine's create with the URI "table:" followed by `n` and the config
`cfg`; `createTable(n)` makes the same call with the config
"key_format=S,value_format=S". Either returns success exactly when the
engine's status is 0 or `EEXIST`, and otherwise raises the Error "Failed to create
table: " followed by the engine's message. Hence two `createTable(n)` in a row both
succeed whenever the engine answers each create with 0 or `EEXIST`. For `uri` and
`config` with no NUL byte, `createIndex(uri, config)` makes one call, the engine's create
with `uri` and `config` unchanged, with the same status mapping (message "Failed to
create index: "). -/
theorem create_status_mapping {σ : Type} (E : Engine σ) (s : WiredTigerSession)
    (n cfg uri config : JsString) (rest : List JsValue) (w : World σ)
    (hs : s.session_ ≠ 0) (hn : (0 : UInt8) ∉ Utf8Value n)
    (hcfg : (0 : UInt8) ∉ Utf8Value cfg) (huri : (0 : UInt8) ∉ Utf8Value uri)
    (hconfig : (0 : UInt8) ∉ Utf8Value config) :
    (∀ r, r = (w.call E (.session_create s.session_ (ascii "table:" ++ Utf8Value n)
          (Utf8Value cfg))).1.ret →
      (s.CreateTable E (.string n :: .string cfg :: rest) w).2.2.log =
        w.log ++ [.session_create s.session_ (ascii "table:" ++ Utf8Value n)
          (Utf8Value cfg)] ∧
      ((s.CreateTable E (.string n :: .string cfg :: rest) w).1 = .ok (.boolean true) ↔
        (r = 0 ∨ r = EEXIST)) ∧
      (¬ (r = 0 ∨ r = EEXIST) →
        (s.CreateTable E (.string n :: .string cfg :: rest) w).1 =
          .raise (.error ("Failed to create table: " ++ E.strerror r)))) ∧
    (∀ r, r = (w.call E (.session_create s.session_ (ascii "table:" ++ Utf8Value n)
          (ascii "key_format=S,value_format=S"))).1.ret →
      (s.CreateTable E [.string n] w).2.2.log =
        w.log ++ [.session_create s.session_ (ascii "table:" ++ Utf8Value n)
          (ascii "key_format=S,value_format=S")] ∧
      ((s.CreateTable E [.string n] w).1 = .ok (.boolean true) ↔
        (r = 0 ∨ r = EEXIST)) ∧
      (¬ (r = 0 ∨ r = EEXIST) →
        (s.CreateTable E [.string n] w).1 =
          .raise (.error ("Failed to create table: " ++ E.strerror r)))) ∧
    (∀ r1 r2,
      r1 = (w.call E (.session_create s.session_ (ascii "table:" ++ Utf8Value n)
          (ascii "key_format=S,value_format=S"))).1.ret →
      r2 = ((w.call E (.session_create s.session_ (ascii "table:" ++ Utf8Value n)
          (ascii "key_format=S,value_format=S"))).2.call E
            (.session_create s.session_ (ascii "table:" ++ Utf8Value n)
              (ascii "key_format=S,value_format=S"))).1.ret →
      (r1 = 0 ∨ r1 = EEXIST) → (r2 = 0 ∨ r2 = EEXIST) →
      (s.CreateTable E [.string n] w).1 = .ok (.boolean true) ∧
      (WiredTigerSession.CreateTable E (s.CreateTable E [.string n] w).2.1 [.string n]
        (s.CreateTable E [.string n] w).2.2).1 = .ok (.boolean true)) ∧
    (∀ r, r = (w.call E (.session_create s.session_ (Utf8Value uri)
          (Utf8Value config))).1.ret →
      (s.CreateIndex E (.string uri :: .string config :: rest) w).2.2.log =
        w.log ++ [.session_create s.session_ (Utf8Value uri) (Utf8Value config)] ∧
      ((s.CreateIndex E (.string uri :: .string config :: rest) w).1 =
          .ok (.boolean true) ↔ (r = 0 ∨ r = EEXIST)) ∧
      (¬ (r = 0 ∨ r = EEXIST) →
        (s.CreateIndex E (.string uri :: .string config :: rest) w).1 =
          .raise (.error ("Failed to create index: " ++ E.strerror r)))) := by
  have hu := c_str_of_no_nul _ (table_uri_no_nul (Utf8Value n) hn)
  have e1 := createTable_eval E s n (.string cfg :: rest) w hs
  simp only [WiredTigerSession.optString, hu, c_str_of_no_nul (Utf8Value cfg) hcfg] at e1
  have e2 : ∀ w0 : World σ, s.CreateTable E [.string n] w0 = _ :=
    fun w0 => createTable_eval E s n [] w0 hs
  simp only [WiredTigerSession.optString, hu, default_config_c_str] at e2
  have e3 := createIndex_eval E s uri config rest w hs
  simp only [c_str_of_no_nul (Utf8Value uri) huri,
    c_str_of_no_nul (Utf8Value config) hconfig] at e3
  refine ⟨?_, ?_, ?_, ?_⟩
  · intro r hr
    subst hr
    have hm := status_mapping_of_eval E _ _ _ _ _ e1
    refine ⟨?_, hm.1, hm.2⟩
    rw [e1]
    exact log_call E w _
  · intro r hr
    subst hr
    have hm := status_mapping_of_eval E _ _ _ _ _ (e2 w)
    refine ⟨?_, hm.1, hm.2⟩
    rw [e2 w]
    exact log_call E w _
  · intro r1 r2 hr1 hr2 h1 h2
    subst hr1 hr2
    have hm1 := status_mapping_of_eval E _ _ _ _ _ (e2 w)
    refine ⟨hm1.1.mpr h1, ?_⟩
    have hst : (s.CreateTable E [.string n] w).2.1 = s := by rw [e2 w]
    have hw : (s.CreateTable E [.string n] w).2.2 =
        (w.call E (.session_create s.session_ (ascii "table:" ++ Utf8Value n)
          (ascii "key_format=S,value_format=S"))).2 := by rw [e2 w]
    rw [hst, hw]
    exact (status_mapping_of_eval E _ _ _ _ _ (e2 _)).1.mpr h2
  · intro r hr
    subst hr
    have hm := status_mapping_of_eval E _ _ _ _ _ e3
    refine ⟨?_, hm.1, hm.2⟩
    rw [e3]
    exact log_call E w _

/-- C15 amended, at concrete inputs on session 5: `createTable("t")` twice on an engine
answering `EEXIST`; `createTable("t", "key_format=u")` and
`createIndex("index:t:i", "columns=(v)")` on an engine answering 22. -/
theorem create_status_mapping_witness :
    ((WiredTigerSession.CreateTable (constEngine EEXIST 0) ⟨5, none⟩ [.string (js "t")]
        ⟨(), []⟩).1 = .ok (.boolean true) ∧
      (WiredTigerSession.CreateTable (constEngine EEXIST 0)
        (WiredTigerSession.CreateTable (constEngine EEXIST 0) ⟨5, none⟩
          [.string (js "t")] ⟨(), []⟩).2.1 [.string (js "t")]
        (WiredTigerSession.CreateTable (constEngine EEXIST 0) ⟨5, none⟩
          [.string (js "t")] ⟨(), []⟩).2.2).1 = .ok (.boolean true)) ∧
    (WiredTigerSession.CreateTable (constEngine 22 0) ⟨5, none⟩
        [.string (js "t"), .string (js "key_format=u")] ⟨(), []⟩).2.2.log =
      [.session_create 5 (ascii "table:t") (ascii "key_format=u")] ∧
    (WiredTigerSession.CreateIndex (constEngine 22 0) ⟨5, none⟩
        [.string (js "index:t:i"), .string (js "columns=(v)")] ⟨(), []⟩).1 =
      .raise (.error "Failed to create index: 22") :=
  have h1 := create_status_mapping (constEngine EEXIST 0) ⟨5, none⟩ (js "t")
    (js "key_format=u") (js "index:t:i") (js "columns=(v)") [] ⟨(), []⟩
    (by decide) (by decide) (by decide) (by decide) (by decide)
  have h2 := create_status_mapping (constEngine 22 0) ⟨5, none⟩ (js "t")
    (js "key_format=u") (js "index:t:i") (js "columns=(v)") [] ⟨(), []⟩
    (by decide) (by decide) (by decide) (by decide) (by decide)
  ⟨h1.2.2.1 _ _ rfl rfl (by decide) (by decide), (h2.1 _ rfl).1,
    (h2.2.2.2 _ rfl).2.2 (by decide)⟩

end WiredTigerBinding
